import Mathlib

/-!
Hotel admin dashboard: a verification development.

A shallow embedding of the client-side logic of the hotel administration
dashboard (`src/services/api.js`, `src/utils/auth.js`, `src/App.js` and the
components under `src/components`).

Conventions of the embedding

* Asynchronous handlers of the views are modelled by the list of observable
  effects they perform, in program order.  What the outside world answers (the
  user in a confirmation dialog, the backend to a request) is an explicit
  argument.
* The session code is modelled by transitions on a record of the state it
  reads and writes: `localStorage`, the location, and the React state of
  `AuthProvider`.  The backend is a function of the request actually sent.
* JavaScript numbers are IEEE 754 binary64 values.  A finite double is modelled
  by the rational number it denotes, and an arithmetic operation by the exact
  rational operation followed by rounding to the nearest double (ties to even).
* A `Date` is modelled by its time value, an integer number of milliseconds
  since the epoch; local time is the time value shifted by a constant zone
  offset.
-/

namespace HotelAdmin

/-! ## Effects -/

/-- Hotel record as held by the Hotels view (the fields the client reads). -/
structure Hotel where
  id : Nat
  name : String
  city : String
  address : String
deriving DecidableEq, Repr

/-- The state `formData` of the Hotels view: the fields of the edit form. -/
structure HotelForm where
  name : String
  description : String
  address : String
  city : String
  state : String
  country : String
  postalCode : String
  phone : String
  email : String
  rating : Nat
deriving DecidableEq, Repr

/-- Observable effects of the handlers of the Hotels view. -/
inductive Effect where
  /-- The call `window.confirm(text)`. -/
  | confirm (text : String)
  /-- A call through the axios instance: HTTP method and path. -/
  | request (method : String) (url : String)
  /-- The call `setMessage` with the banner's type and text. -/
  | setMessage (type : String) (text : String)
  /-- The call `setLoading(b)`. -/
  | setLoading (b : Bool)
  /-- The call `setHotels(data)`. -/
  | setHotels (data : List Hotel)
  /-- The call `console.error(label, error)`. -/
  | consoleError (label : String)
  /-- A call through the axios instance that carries the form as its body. -/
  | requestWithData (method : String) (url : String) (data : HotelForm)
  /-- The call `e.preventDefault()`. -/
  | preventDefault
  /-- The call `setFormLoading(b)`. -/
  | setFormLoading (b : Bool)
  /-- The call `setShowModal(b)`. -/
  | setShowModal (b : Bool)
  /-- The call `resetForm()`. -/
  | resetForm
deriving DecidableEq, Repr

/-- Outcome of a request: the response data, or a rejection. -/
inductive Outcome (α : Type) where
  | resolved (data : α)
  | rejected
deriving DecidableEq, Repr

/-! ## `services/api.js`: hotel service -/

/-- Path of `hotelService.delete(id)`: the template string
`/api/hotels/` followed by the id. -/
def hotelPath (id : Nat) : String := "/api/hotels/" ++ toString id

/-- Effect of `hotelService.delete(id)`: `api.delete` on the hotel path. -/
def hotelServiceDelete (id : Nat) : Effect := Effect.request "DELETE" (hotelPath id)

/-- Effect of `hotelService.getAll()`: `api.get('/api/hotels')`. -/
def hotelServiceGetAll : Effect := Effect.request "GET" "/api/hotels"

/-! ## `components/Hotels/HotelsManagement.js` -/

/-- Effects of `loadHotels`, given the backend's answer to the fetch. -/
def loadHotels (fetch : Outcome (List Hotel)) : List Effect :=
  [Effect.setLoading true, hotelServiceGetAll] ++
    (match fetch with
     | Outcome.resolved data => [Effect.setHotels data]
     | Outcome.rejected =>
        [Effect.consoleError "Error loading hotels:",
         Effect.setMessage "error" "Error loading hotels. Please try again."]) ++
    [Effect.setLoading false]

/-- Text shown by the confirmation dialog of `handleDelete`. -/
def deleteConfirmText (name : String) : String :=
  "Are you sure you want to delete \"" ++ name ++ "\"? This action cannot be undone."

/-- Effects of `handleDelete(id, name)`.  `answer` is what the user answers to
a confirmation dialog showing a given text, `del` the backend's answer to the
delete call and `fetch` its answer to the reload. -/
def handleDelete (id : Nat) (name : String) (answer : String → Bool)
    (del : Outcome Unit) (fetch : Outcome (List Hotel)) : List Effect :=
  Effect.confirm (deleteConfirmText name) ::
    (if answer (deleteConfirmText name) then
      hotelServiceDelete id ::
        (match del with
         | Outcome.resolved _ =>
            Effect.setMessage "success" "Hotel deleted successfully!" :: loadHotels fetch
         | Outcome.rejected =>
            [Effect.consoleError "Error deleting hotel:",
             Effect.setMessage "error" "Error deleting hotel. Please try again."])
    else [])

/-- Is the effect a DELETE request? -/
def Effect.isDelete : Effect → Bool
  | Effect.request m _ => m == "DELETE"
  | _ => false

/-- Is the effect a request of any kind? -/
def Effect.isRequest : Effect → Bool
  | Effect.request _ _ => true
  | _ => false

/-- Is the effect a banner update? -/
def Effect.isMessage : Effect → Bool
  | Effect.setMessage _ _ => true
  | _ => false

/-- Effect of `hotelService.create(hotel)`: `api.post('/api/hotels', hotel)`. -/
def hotelServiceCreate (hotel : HotelForm) : Effect :=
  Effect.requestWithData "POST" "/api/hotels" hotel

/-- Effect of `hotelService.update(id, hotel)`: `api.put` on the hotel path. -/
def hotelServiceUpdate (id : Nat) (hotel : HotelForm) : Effect :=
  Effect.requestWithData "PUT" (hotelPath id) hotel

/-- Effects of `handleSubmit(e)`.  `editingHotel` and `formData` are the state
of the view, `save` the backend's answer to the create or update call and
`fetch` its answer to the reload. -/
def handleSubmit (editingHotel : Option Hotel) (formData : HotelForm)
    (save : Outcome Unit) (fetch : Outcome (List Hotel)) : List Effect :=
  [Effect.preventDefault, Effect.setFormLoading true] ++
    (match editingHotel with
     | some hotel =>
        hotelServiceUpdate hotel.id formData ::
          (match save with
           | Outcome.resolved _ =>
              Effect.setMessage "success" "Hotel updated successfully!" ::
                (loadHotels fetch ++ [Effect.setShowModal false, Effect.resetForm])
           | Outcome.rejected =>
              [Effect.consoleError "Error saving hotel:",
               Effect.setMessage "error" "Error saving hotel. Please try again."])
     | none =>
        hotelServiceCreate formData ::
          (match save with
           | Outcome.resolved _ =>
              Effect.setMessage "success" "Hotel created successfully!" ::
                (loadHotels fetch ++ [Effect.setShowModal false, Effect.resetForm])
           | Outcome.rejected =>
              [Effect.consoleError "Error saving hotel:",
               Effect.setMessage "error" "Error saving hotel. Please try again."])) ++
    [Effect.setFormLoading false]

/-- The method `includes` of strings: `part` occurs in `whole`. -/
def includes (whole part : String) : Bool := decide (part.toList <:+: whole.toList)

/-- The memoized list `filteredHotels`; `toLowerCase` is the runtime's method
of that name. -/
def filteredHotels (toLowerCase : String → String) (searchTerm filterCity : String)
    (hotels : List Hotel) : List Hotel :=
  hotels.filter (fun hotel =>
    let matchesSearch := includes (toLowerCase hotel.name) (toLowerCase searchTerm) ||
      includes (toLowerCase hotel.city) (toLowerCase searchTerm) ||
      includes (toLowerCase hotel.address) (toLowerCase searchTerm)
    let matchesCity := filterCity = "" || hotel.city = filterCity
    matchesSearch && matchesCity)

/-! ## `components/Bookings/BookingsManagement.js`: status tables -/

/-- Entry of a status table. -/
structure StatusInfo where
  value : String
  label : String
  color : String
deriving DecidableEq, Repr

/-- The table `bookingStatuses`. -/
def bookingStatuses : List StatusInfo :=
  [ { value := "PENDING", label := "Pending", color := "warning" },
    { value := "CONFIRMED", label := "Confirmed", color := "success" },
    { value := "CHECKED_IN", label := "Checked In", color := "info" },
    { value := "CHECKED_OUT", label := "Checked Out", color := "secondary" },
    { value := "CANCELLED", label := "Cancelled", color := "danger" } ]

/-- The table `paymentStatuses`. -/
def paymentStatuses : List StatusInfo :=
  [ { value := "PENDING", label := "Pending", color := "warning" },
    { value := "PAID", label := "Paid", color := "success" },
    { value := "REFUNDED", label := "Refunded", color := "info" } ]

/-- The function `getStatusInfo(status, statusType)`; the source's default for
`statusType` is `'booking'`. -/
def getStatusInfo (status : String) (statusType : String) : StatusInfo :=
  let statuses := if statusType = "booking" then bookingStatuses else paymentStatuses
  match statuses.find? (fun s => s.value == status) with
  | some statusInfo => statusInfo
  | none => { value := status, label := status, color := "secondary" }

/-! ## Dates

The library functions of `Date` the Bookings view uses, after ECMAScript's
definitions (Day, DayFromYear, YearFromTime, MonthFromTime, DateFromTime,
MakeDay).  Time values are unbounded integers: the range limit of `Date` and the
constructor's treatment of the years 0 to 99 are outside the model, the clock
being read long after the epoch.  `tz` is the offset of local time from UTC in
milliseconds, constant over the period considered. -/

/-- Milliseconds per day. -/
def msPerDay : Int := 86400000

/-- Day number of a time value: `floor(t / msPerDay)`. -/
def day (t : Int) : Int := t / msPerDay

/-- Local time of a time value. -/
def localTime (tz t : Int) : Int := t + tz

/-- Day number of the first day of year `y`. -/
def dayFromYear (y : Int) : Int :=
  365 * (y - 1970) + (y - 1969) / 4 - (y - 1901) / 100 + (y - 1601) / 400

/-- Leap-year indicator: 1 in a leap year, 0 otherwise. -/
def inLeapYear (y : Int) : Int :=
  if y % 4 ≠ 0 then 0 else if y % 100 ≠ 0 then 1 else if y % 400 ≠ 0 then 0 else 1

/-- Year of a day number: the largest `y` with `dayFromYear y ≤ n`, computed
from an estimate by the mean year length and one correction step. -/
def yearFromDay (n : Int) : Int :=
  let y := 1970 + (400 * n) / 146097
  if dayFromYear (y + 1) ≤ n then y + 1 else if n < dayFromYear y then y - 1 else y

/-- Day within its year (0 based) of a day number. -/
def dayWithinYear (n : Int) : Int := n - dayFromYear (yearFromDay n)

/-- Day within the year on which month `m` (0 based) starts; `leap` is the
leap-year indicator. -/
def monthStart (leap : Int) (m : Int) : Int :=
  if m ≤ 0 then 0 else if m = 1 then 31 else if m = 2 then 59 + leap
  else if m = 3 then 90 + leap else if m = 4 then 120 + leap
  else if m = 5 then 151 + leap else if m = 6 then 181 + leap
  else if m = 7 then 212 + leap else if m = 8 then 243 + leap
  else if m = 9 then 273 + leap else if m = 10 then 304 + leap else 334 + leap

/-- Month (0 based) in which day `d` (0 based) of a year falls; `leap` is the
leap-year indicator. -/
def monthOfYearDay (leap : Int) (d : Int) : Int :=
  if d < 31 then 0 else if d < 59 + leap then 1 else if d < 90 + leap then 2
  else if d < 120 + leap then 3 else if d < 151 + leap then 4
  else if d < 181 + leap then 5 else if d < 212 + leap then 6
  else if d < 243 + leap then 7 else if d < 273 + leap then 8
  else if d < 304 + leap then 9 else if d < 334 + leap then 10 else 11

/-- Month (0 based) of a day number. -/
def monthFromDay (n : Int) : Int :=
  monthOfYearDay (inLeapYear (yearFromDay n)) (dayWithinYear n)

/-- Day of the month (1 based) of a day number. -/
def dateFromDay (n : Int) : Int :=
  dayWithinYear n - monthStart (inLeapYear (yearFromDay n)) (monthFromDay n) + 1

/-- The method `getFullYear()` of a date with time value `t`. -/
def getFullYear (tz t : Int) : Int := yearFromDay (day (localTime tz t))

/-- The method `getMonth()`. -/
def getMonth (tz t : Int) : Int := monthFromDay (day (localTime tz t))

/-- The method `getDate()`. -/
def getDate (tz t : Int) : Int := dateFromDay (day (localTime tz t))

/-- Day number of `date` in month `month` of `year`; a month outside 0..11
carries into the year and a date outside the month into the neighbouring
months. -/
def makeDay (year month date : Int) : Int :=
  let ym := year + month / 12
  let mn := month % 12
  dayFromYear ym + monthStart (inLeapYear ym) mn + date - 1

/-- Time value of `new Date(year, month, date)`: local midnight of that day. -/
def newDate (tz year month date : Int) : Int := makeDay year month date * msPerDay - tz

/-- What `toDateString()` prints: the local calendar day (the weekday it also
prints is determined by the day). -/
structure DateString where
  year : Int
  month : Int
  date : Int
deriving DecidableEq, Repr

/-- The method `toDateString()`. -/
def toDateString (tz t : Int) : DateString :=
  { year := getFullYear tz t, month := getMonth tz t, date := getDate tz t }

/-! ## `components/Bookings/BookingsManagement.js`: filtering -/

/-- Booking record (the fields the client computes with).  `checkInDate` and
`createdAt` hold the time values of `new Date(checkInDate)` and
`new Date(createdAt)`; `totalAmount` is absent or a number. -/
structure Booking where
  id : Nat
  hotelId : Nat
  bookingStatus : String
  paymentStatus : String
  checkInDate : Int
  createdAt : Int
  totalAmount : Option ℚ
deriving DecidableEq

/-- The date-range test of `filteredBookings`: `today` is the time value of
`new Date()`, `checkIn` that of `new Date(booking.checkInDate)`. -/
def matchesDateRange (tz : Int) (filterDateRange : String) (today checkIn : Int) : Bool :=
  if filterDateRange = "" then true
  else if filterDateRange = "today" then
    toDateString tz checkIn == toDateString tz today
  else if filterDateRange = "week" then
    let nextWeek := today + 7 * 24 * 60 * 60 * 1000
    decide (checkIn ≥ today) && decide (checkIn ≤ nextWeek)
  else if filterDateRange = "month" then
    let nextMonth := newDate tz (getFullYear tz today) (getMonth tz today + 1) (getDate tz today)
    decide (checkIn ≥ today) && decide (checkIn ≤ nextMonth)
  else if filterDateRange = "past" then
    decide (checkIn < today)
  else true

/-- The memoized list `filteredBookings`; `today` is the clock reading, taken
as the same for every booking of one pass. -/
def filteredBookings (tz today : Int) (filterStatus filterHotel filterDateRange : String)
    (bookings : List Booking) : List Booking :=
  bookings.filter (fun booking =>
    let matchesStatus := filterStatus = "" || booking.bookingStatus = filterStatus
    let matchesHotel := filterHotel = "" || toString booking.hotelId = filterHotel
    matchesStatus && matchesHotel && matchesDateRange tz filterDateRange today booking.checkInDate)

/-! ## Numbers

A finite binary64 value is modelled by the rational number it denotes.  `fl`
rounds a real number to the nearest value with 53 significant bits, ties to
even; the exponent range is unbounded, so overflow to infinity is outside the
model (gradual underflow does not affect the operations used here: a sum of two
doubles in the subnormal range is exact). -/

/-- Rounding to the nearest integer, ties to the even one. -/
def roundHalfEven (q : ℚ) : Int :=
  if q - ⌊q⌋ < 1 / 2 then ⌊q⌋
  else if 1 / 2 < q - ⌊q⌋ then ⌊q⌋ + 1
  else if ⌊q⌋ % 2 = 0 then ⌊q⌋ else ⌊q⌋ + 1

/-- Rounding to the nearest binary64 value: with `2 ^ e ≤ |q| < 2 ^ (e + 1)`
the result is the multiple of `2 ^ (e - 52)` nearest to `q`. -/
def fl (q : ℚ) : ℚ :=
  if q = 0 then 0
  else roundHalfEven (q / 2 ^ (Int.log 2 |q| - 52)) * 2 ^ (Int.log 2 |q| - 52)

/-- The operator `+` on numbers. -/
def fadd (a b : ℚ) : ℚ := fl (a + b)

/-- The operator `*` on numbers. -/
def fmul (a b : ℚ) : ℚ := fl (a * b)

/-- The operator `/` on numbers, for a divisor other than zero. -/
def fdiv (a b : ℚ) : ℚ := fl (a / b)

/-- Numeric value of the string `x.toFixed(1)`: `n / 10` for the integer `n`
with `n / 10` nearest to `x`, the larger in magnitude of two such `n`. -/
def toFixed1 (x : ℚ) : ℚ :=
  if x < 0 then -((⌊10 * (-x) + 1 / 2⌋ : Int) : ℚ) / 10
  else ((⌊10 * x + 1 / 2⌋ : Int) : ℚ) / 10

/-! ## `components/Dashboard/Dashboard.js`: statistics -/

/-- Room record (the fields the client reads). -/
structure Room where
  id : Nat
  hotelId : Nat
  roomTypeId : Nat
  roomNumber : String
  floor : Nat
  status : String
deriving DecidableEq, Repr

/-- The statistic `occupancyRate` of `loadDashboardData`, as a number: the
value printed by `toFixed(1)`, or `0` for no rooms. -/
def occupancyRate (rooms : List Room) : ℚ :=
  let occupiedRooms := rooms.filter (fun r => r.status = "OCCUPIED")
  if rooms.length > 0 then
    toFixed1 (fmul (fdiv occupiedRooms.length rooms.length) 100)
  else 0

/-- The term `parseFloat(b.totalAmount || 0)`.  `totalAmount` holds the decimal
number written in the response, which the client reads as the nearest double;
an absent amount counts as 0, and a number is printed and read back
unchanged. -/
def amountOf (b : Booking) : ℚ :=
  match b.totalAmount with
  | none => 0
  | some q => fl q

/-- The statistic `revenue` of `loadDashboardData`. -/
def revenue (bookings : List Booking) : ℚ :=
  (bookings.filter (fun b => b.paymentStatus = "PAID")).foldl
    (fun sum b => fadd sum (amountOf b)) 0

/-- Following the spec's words, not the code: the amount of a booking in exact
arithmetic, an absent amount counting as 0. -/
def exactAmount (b : Booking) : ℚ := b.totalAmount.getD 0

/-- Following the spec's words, not the code: the sum of `totalAmount` over the
bookings whose `paymentStatus` is `PAID`, in exact arithmetic. -/
def paidTotal (bookings : List Booking) : ℚ :=
  ((bookings.filter (fun b => b.paymentStatus = "PAID")).map exactAmount).sum

/-- Sample record: a room with the given id and status. -/
def roomWith (id : Nat) (status : String) : Room :=
  { id := id, hotelId := 1, roomTypeId := 1, roomNumber := "101", floor := 1, status := status }

/-- Sample record: a PAID booking with the given id and amount. -/
def paidBooking (id : Nat) (amount : ℚ) : Booking :=
  { id := id, hotelId := 1, bookingStatus := "CONFIRMED", paymentStatus := "PAID",
    checkInDate := 0, createdAt := 0, totalAmount := some amount }

/-! ## `components/Dashboard/Dashboard.js`: recent bookings -/

/-- Insertion of `a` into a list ordered by the comparator `cmp`: before the
first element that `a` does not have to follow. -/
def orderedInsert {α : Type} (cmp : α → α → Int) (a : α) : List α → List α
  | [] => [a]
  | b :: l => if cmp a b ≤ 0 then a :: b :: l else b :: orderedInsert cmp a l

/-- The method `Array.prototype.sort(cmp)`: a stable sort, `a` before `b` when
`cmp(a, b) < 0` and in the original order when `cmp(a, b) = 0`.  For a
consistent comparator the result does not depend on the sorting algorithm;
insertion sort is used here. -/
def arraySort {α : Type} (cmp : α → α → Int) : List α → List α
  | [] => []
  | a :: l => orderedInsert cmp a (arraySort cmp l)

/-- The comparator `(a, b) => new Date(b.createdAt) - new Date(a.createdAt)`. -/
def compareCreatedAt (a b : Booking) : Int := b.createdAt - a.createdAt

/-- The list `recent` of `loadDashboardData`: `bookings.sort(...).slice(0, 5)`. -/
def recentBookings (bookings : List Booking) : List Booking :=
  (arraySort compareCreatedAt bookings).take 5

/-! ## Browser state and `services/api.js` -/

/-- The store `localStorage`: string entries by key. -/
abbrev Storage := String → Option String

/-- The method `getItem`. -/
def Storage.getItem (s : Storage) (key : String) : Option String := s key

/-- The method `setItem`. -/
def Storage.setItem (s : Storage) (key value : String) : Storage :=
  fun k => if k = key then some value else s k

/-- The method `removeItem`. -/
def Storage.removeItem (s : Storage) (key : String) : Storage :=
  fun k => if k = key then none else s k

/-- Truthiness of what `getItem` returns: `null` and the empty string are
falsy. -/
def truthy : Option String → Bool
  | some v => v ≠ ""
  | none => false

/-- The principal returned by the backend. -/
structure User where
  id : Nat
  firstName : String
  lastName : String
  email : String
  role : String
deriving DecidableEq, Repr

/-- The functions `JSON.stringify` and `JSON.parse` on user records, supplied
by the runtime.  `parse` is `none` where `JSON.parse` throws, `some none` where
it returns `null` (or another falsy value: `0`, `false`, the empty string, which
the session code treats like `null`), and `some (some u)` where it returns the
user record `u`. -/
structure Json where
  stringify : User → String
  parse : String → Option (Option User)

/-- The state the session code reads and writes: `localStorage`, the location
`window.location.href`, and the React state `user` and `loading` of
`AuthProvider`. -/
structure Session where
  storage : Storage
  href : String
  user : Option User
  loading : Bool

/-- Request configuration of the axios instance. -/
structure RequestConfig where
  method : String
  url : String
  data : List (String × String)
  params : List (String × String)
  contentType : String
  authorization : Option String
deriving DecidableEq, Repr

/-- An error of the axios instance; `status` is `error.response?.status`, absent
when no response arrived. -/
structure HttpError where
  status : Option Nat
deriving DecidableEq, Repr

/-- The request interceptor. -/
def requestInterceptor (storage : Storage) (config : RequestConfig) : RequestConfig :=
  let auth := storage.getItem "auth"
  if truthy auth then { config with authorization := auth } else config

/-- The error handler of the response interceptor: the state it leaves; the
error itself is rejected unchanged. -/
def responseErrorInterceptor (st : Session) (error : HttpError) : Session :=
  if error.status = some 401 then
    { st with storage := (st.storage.removeItem "auth").removeItem "user", href := "/login" }
  else st

/-- A call through the axios instance `api`: the request interceptor, the
backend's answer to the request sent, the response interceptor.  Returns the
state left, the request sent and the settled result. -/
def apiRequest {α : Type} (st : Session) (config : RequestConfig)
    (backend : RequestConfig → Except HttpError α) :
    Session × RequestConfig × Except HttpError α :=
  let sent := requestInterceptor st.storage config
  match backend sent with
  | Except.ok response => (st, sent, Except.ok response)
  | Except.error error => (responseErrorInterceptor st error, sent, Except.error error)

/-- The base64 alphabet. -/
def base64Alphabet : List Char :=
  "ABCDEFGHIJKLMNOPQRSTUVWXYZabcdefghijklmnopqrstuvwxyz0123456789+/".toList

/-- The base64 digit of a 6-bit value. -/
def base64Digit (n : Nat) : Char := base64Alphabet.getD n '='

/-- Base64 encoding of a list of bytes. -/
def base64Encode : List Nat → List Char
  | a :: b :: c :: rest =>
      base64Digit (a / 4) :: base64Digit (a % 4 * 16 + b / 16) ::
        base64Digit (b % 16 * 4 + c / 64) :: base64Digit (c % 64) :: base64Encode rest
  | [a, b] =>
      [base64Digit (a / 4), base64Digit (a % 4 * 16 + b / 16), base64Digit (b % 16 * 4), '=']
  | [a] => [base64Digit (a / 4), base64Digit (a % 4 * 16), '=', '=']
  | [] => []

/-- The function `btoa`: base64 of a string of characters below 256; `none`
where `btoa` throws (a character outside that range). -/
def btoa (str : String) : Option String :=
  if str.toList.all (fun c => c.toNat < 256) then
    some (String.mk (base64Encode (str.toList.map Char.toNat)))
  else none

/-- The body of the login response: `success` and `user` (which may be
missing). -/
structure LoginResponse where
  success : Bool
  user : Option User
deriving DecidableEq, Repr

/-- Why a call of `authService.login` rejects: an exception thrown before the
request, or the error of the request. -/
inductive Rejection where
  | thrown
  | http (error : HttpError)
deriving DecidableEq, Repr

/-- The request `authService.login` hands to `api.post`: the credentials in the
body and in a Basic `Authorization` header. -/
def loginRequest (email password credentials : String) : RequestConfig :=
  { method := "POST", url := "/api/users/login",
    data := [("email", email), ("password", password)], params := [],
    contentType := "application/json",
    authorization := some ("Basic " ++ credentials) }

/-- The function `authService.login(email, password)`: the state left, the
request sent (none when `btoa` throws) and the settled result. -/
def authServiceLogin (st : Session) (email password : String)
    (backend : RequestConfig → Except HttpError LoginResponse) :
    Session × Option RequestConfig × Except Rejection LoginResponse :=
  match btoa (email ++ ":" ++ password) with
  | none => (st, none, Except.error Rejection.thrown)
  | some credentials =>
    match apiRequest st (loginRequest email password credentials) backend with
    | (st1, sent, Except.ok response) => (st1, some sent, Except.ok response)
    | (st1, sent, Except.error error) => (st1, some sent, Except.error (Rejection.http error))

/-- The function `authService.logout()`. -/
def authServiceLogout (st : Session) : Session :=
  { st with storage := (st.storage.removeItem "auth").removeItem "user" }

/-! ## `utils/auth.js` -/

/-- What `login` resolves to. -/
structure LoginResult where
  success : Bool
  error : Option String
deriving DecidableEq, Repr

/-- The result of the `else` branch of `login`. -/
def loginRefused : LoginResult :=
  { success := false, error := some "Invalid credentials or insufficient permissions" }

/-- The result of the `catch` branch of `login`. -/
def loginFailed : LoginResult :=
  { success := false, error := some "Login failed. Please check your credentials." }

/-- The function `login(email, password)` of `AuthProvider`. -/
def login (json : Json) (st : Session) (email password : String)
    (backend : RequestConfig → Except HttpError LoginResponse) : Session × LoginResult :=
  match authServiceLogin st email password backend with
  | (st1, _, Except.ok response) =>
    if response.success then
      match response.user with
      | none => (st1, loginFailed)
      | some user =>
        if user.role = "ADMIN" then
          match btoa (email ++ ":" ++ password) with
          | none => (st1, loginFailed)
          | some credentials =>
            ({ st1 with
                storage := (st1.storage.setItem "auth" ("Basic " ++ credentials)).setItem "user"
                  (json.stringify user),
                user := some user },
             { success := true, error := none })
        else (st1, loginRefused)
    else (st1, loginRefused)
  | (st1, _, Except.error _) => (st1, loginFailed)

/-- The function `logout()` of `AuthProvider`. -/
def logout (st : Session) : Session :=
  { authServiceLogout st with user := none }

/-- The effect that restores the session at startup; `none` where it ends with
an exception (`JSON.parse` throwing).  The value `JSON.parse` returns goes to
`setUser` as it is, `null` included. -/
def restore (json : Json) (st : Session) : Option Session :=
  let storedUser := st.storage.getItem "user"
  let storedAuth := st.storage.getItem "auth"
  if truthy storedUser && truthy storedAuth then
    match json.parse (storedUser.getD "") with
    | some parsed => some { st with user := parsed, loading := false }
    | none => none
  else some { st with loading := false }

/-! ## `App.js`: routes -/

/-- What a route element renders. -/
inductive View where
  | loadingScreen
  | login
  | dashboard
  | hotels
  | rooms
  | bookings
deriving DecidableEq, Repr

/-- Outcome of rendering a route element: a view, or `Navigate` to a path. -/
inductive Rendered where
  | view (v : View)
  | navigate (path : String)
deriving DecidableEq, Repr

/-- The component `ProtectedRoute`. -/
def ProtectedRoute (user : Option User) (loading : Bool) (children : Rendered) : Rendered :=
  if loading then Rendered.view View.loadingScreen
  else if user.isSome then children else Rendered.navigate "/login"

/-- The component `PublicRoute`. -/
def PublicRoute (user : Option User) (loading : Bool) (children : Rendered) : Rendered :=
  if loading then Rendered.view View.loadingScreen
  else if !user.isSome then children else Rendered.navigate "/dashboard"

/-- The routes of the table in `App`. -/
inductive Route where
  | login
  | index
  | dashboard
  | hotels
  | rooms
  | bookings
  | catchAll
deriving DecidableEq, Repr

/-- A path as the router compares it: letters in lower case (matching ignores
case) and without trailing slashes. -/
def normalizePath (path : String) : String :=
  String.mk (((path.toList.map Char.toLower).reverse.dropWhile (fun c => c == '/')).reverse)

/-- The route the router selects for a requested path; `*` takes every path no
other route matches. -/
def matchRoute (path : String) : Route :=
  let p := normalizePath path
  if p = "" then Route.index
  else if p = "/login" then Route.login
  else if p = "/dashboard" then Route.dashboard
  else if p = "/hotels" then Route.hotels
  else if p = "/rooms" then Route.rooms
  else if p = "/bookings" then Route.bookings
  else Route.catchAll

/-- The element of a route, rendered for a session state.  The routes below `/`
render inside `ProtectedRoute` around `Layout`, whose outlet shows the child. -/
def renderRoute (user : Option User) (loading : Bool) : Route → Rendered
  | Route.login => PublicRoute user loading (Rendered.view View.login)
  | Route.index => ProtectedRoute user loading (Rendered.navigate "/dashboard")
  | Route.dashboard => ProtectedRoute user loading (Rendered.view View.dashboard)
  | Route.hotels => ProtectedRoute user loading (Rendered.view View.hotels)
  | Route.rooms => ProtectedRoute user loading (Rendered.view View.rooms)
  | Route.bookings => ProtectedRoute user loading (Rendered.view View.bookings)
  | Route.catchAll => Rendered.navigate "/dashboard"

/-- Route resolution: renders the route of `path` and follows `Navigate`, at
most `fuel` times.  Returns the view reached with the number of redirects
followed, or `none` when a redirect remains after `fuel` redirects. -/
def resolve (user : Option User) (loading : Bool) : Nat → String → Option (View × Nat)
  | fuel, path =>
    match renderRoute user loading (matchRoute path) with
    | Rendered.view v => some (v, 0)
    | Rendered.navigate target =>
      match fuel with
      | 0 => none
      | fuel + 1 => (resolve user loading fuel target).map (fun r => (r.1, r.2 + 1))

/-! ## `components/Rooms/RoomsManagement.js` -/

/-- Room type record (the fields the client reads). -/
structure RoomType where
  id : Nat
  hotelId : Nat
  name : String
  basePrice : ℚ
  maxOccupancy : Nat
deriving DecidableEq

/-- The banner state `message`. -/
structure Message where
  type : String
  text : String
deriving DecidableEq, Repr

/-- The state of the Rooms view. -/
structure RoomsState where
  rooms : List Room
  hotels : List Hotel
  roomTypes : List RoomType
  loading : Bool
  message : Message
  updatingRoom : Option Nat
  filterHotel : String
  filterStatus : String
  filterRoomType : String

/-- The object `{ ...room, status: newStatus }` sent by `updateRoomStatus`: the
stored room with the new status, or the status alone when `room` is
undefined. -/
inductive RoomPayload where
  | record (room : Room)
  | statusOnly (status : String)
deriving DecidableEq, Repr

/-- Observable effects of the handlers of the Rooms view. -/
inductive RoomsEffect where
  /-- A call through the axios instance: HTTP method and path. -/
  | request (method : String) (url : String)
  /-- A call through the axios instance that carries a room as its body. -/
  | requestWithData (method : String) (url : String) (data : RoomPayload)
  /-- The call `setRooms(data)`. -/
  | setRooms (data : List Room)
  /-- The call `setHotels(data)`. -/
  | setHotels (data : List Hotel)
  /-- The call `setRoomTypes(data)`. -/
  | setRoomTypes (data : List RoomType)
  /-- The call `setLoading(b)`. -/
  | setLoading (b : Bool)
  /-- The call `setMessage` with the banner's type and text. -/
  | setMessage (type : String) (text : String)
  /-- The call `setUpdatingRoom(id)`. -/
  | setUpdatingRoom (id : Option Nat)
  /-- The call `console.error(label, error)`. -/
  | consoleError (label : String)
deriving DecidableEq

/-- The state after an effect of the Rooms view. -/
def RoomsState.apply (st : RoomsState) : RoomsEffect → RoomsState
  | RoomsEffect.setRooms data => { st with rooms := data }
  | RoomsEffect.setHotels data => { st with hotels := data }
  | RoomsEffect.setRoomTypes data => { st with roomTypes := data }
  | RoomsEffect.setLoading b => { st with loading := b }
  | RoomsEffect.setMessage type text => { st with message := { type := type, text := text } }
  | RoomsEffect.setUpdatingRoom id => { st with updatingRoom := id }
  | _ => st

/-- The state after a list of effects of the Rooms view. -/
def RoomsState.run (st : RoomsState) (effects : List RoomsEffect) : RoomsState :=
  effects.foldl RoomsState.apply st

/-- Effects of `loadData` of the Rooms view, given the backend's answers to
the three fetches that `Promise.all` awaits. -/
def roomsLoadData (rooms : Outcome (List Room)) (hotels : Outcome (List Hotel))
    (roomTypes : Outcome (List RoomType)) : List RoomsEffect :=
  [RoomsEffect.setLoading true, RoomsEffect.request "GET" "/api/rooms",
    RoomsEffect.request "GET" "/api/hotels", RoomsEffect.request "GET" "/api/room-types"] ++
    (match rooms, hotels, roomTypes with
     | Outcome.resolved roomsData, Outcome.resolved hotelsData, Outcome.resolved roomTypesData =>
        [RoomsEffect.setRooms roomsData, RoomsEffect.setHotels hotelsData,
         RoomsEffect.setRoomTypes roomTypesData]
     | _, _, _ =>
        [RoomsEffect.consoleError "Error loading data:",
         RoomsEffect.setMessage "error" "Error loading room data. Please try again."]) ++
    [RoomsEffect.setLoading false]

/-- Effect of `roomService.update(id, room)`: `api.put` on the room path. -/
def roomServiceUpdate (id : Nat) (room : RoomPayload) : RoomsEffect :=
  RoomsEffect.requestWithData "PUT" ("/api/rooms/" ++ toString id) room

/-- Effects of `updateRoomStatus(roomId, newStatus)`.  `rooms` is the state of
the view, `update` the backend's answer to the update call, the other three its
answers to the reload. -/
def updateRoomStatus (rooms : List Room) (roomId : Nat) (newStatus : String)
    (update : Outcome Unit) (roomsFetch : Outcome (List Room))
    (hotelsFetch : Outcome (List Hotel)) (roomTypesFetch : Outcome (List RoomType)) :
    List RoomsEffect :=
  let payload :=
    match rooms.find? (fun r => r.id == roomId) with
    | some room => RoomPayload.record { room with status := newStatus }
    | none => RoomPayload.statusOnly newStatus
  [RoomsEffect.setUpdatingRoom (some roomId), roomServiceUpdate roomId payload] ++
    (match update with
     | Outcome.resolved _ =>
        RoomsEffect.setMessage "success" "Room status updated successfully!" ::
          roomsLoadData roomsFetch hotelsFetch roomTypesFetch
     | Outcome.rejected =>
        [RoomsEffect.consoleError "Error updating room status:",
         RoomsEffect.setMessage "error" "Error updating room status. Please try again."]) ++
    [RoomsEffect.setUpdatingRoom none]

/-- The memoized list `filteredRooms`. -/
def filteredRooms (filterHotel filterStatus filterRoomType : String) (rooms : List Room) :
    List Room :=
  rooms.filter (fun room =>
    let matchesHotel := filterHotel = "" || toString room.hotelId = filterHotel
    let matchesStatus := filterStatus = "" || room.status = filterStatus
    let matchesRoomType := filterRoomType = "" || toString room.roomTypeId = filterRoomType
    matchesHotel && matchesStatus && matchesRoomType)

/-! ## `components/Bookings/BookingsManagement.js`: handlers -/

/-- The state of the Bookings view (without its filters and its history
dialog). -/
structure BookingsState where
  bookings : List Booking
  hotels : List Hotel
  loading : Bool
  message : Message
  updatingBooking : Option Nat

/-- Observable effects of the handlers of the Bookings view. -/
inductive BookingsEffect where
  /-- A call through the axios instance: HTTP method and path. -/
  | request (method : String) (url : String)
  /-- A call through the axios instance with the body
  `{ status, changedBy, reason }`. -/
  | requestStatus (method : String) (url : String) (status : String) (changedBy : Nat)
      (reason : String)
  /-- The call `setBookings(data)`. -/
  | setBookings (data : List Booking)
  /-- The call `setHotels(data)`. -/
  | setHotels (data : List Hotel)
  /-- The call `setLoading(b)`. -/
  | setLoading (b : Bool)
  /-- The call `setMessage` with the banner's type and text. -/
  | setMessage (type : String) (text : String)
  /-- The call `setUpdatingBooking(id)`. -/
  | setUpdatingBooking (id : Option Nat)
  /-- The call `console.error(label, error)`. -/
  | consoleError (label : String)
deriving DecidableEq

/-- The state after an effect of the Bookings view. -/
def BookingsState.apply (st : BookingsState) : BookingsEffect → BookingsState
  | BookingsEffect.setBookings data => { st with bookings := data }
  | BookingsEffect.setHotels data => { st with hotels := data }
  | BookingsEffect.setLoading b => { st with loading := b }
  | BookingsEffect.setMessage type text => { st with message := { type := type, text := text } }
  | BookingsEffect.setUpdatingBooking id => { st with updatingBooking := id }
  | _ => st

/-- The state after a list of effects of the Bookings view. -/
def BookingsState.run (st : BookingsState) (effects : List BookingsEffect) : BookingsState :=
  effects.foldl BookingsState.apply st

/-- Effects of `loadData` of the Bookings view, given the backend's answers to
the two fetches that `Promise.all` awaits. -/
def bookingsLoadData (bookings : Outcome (List Booking)) (hotels : Outcome (List Hotel)) :
    List BookingsEffect :=
  [BookingsEffect.setLoading true, BookingsEffect.request "GET" "/api/bookings",
    BookingsEffect.request "GET" "/api/hotels"] ++
    (match bookings, hotels with
     | Outcome.resolved bookingsData, Outcome.resolved hotelsData =>
        [BookingsEffect.setBookings bookingsData, BookingsEffect.setHotels hotelsData]
     | _, _ =>
        [BookingsEffect.consoleError "Error loading data:",
         BookingsEffect.setMessage "error" "Error loading booking data. Please try again."]) ++
    [BookingsEffect.setLoading false]

/-- Effect of `bookingService.updateStatus(id, status, changedBy, reason)`:
`api.put` on the status path of the booking. -/
def bookingServiceUpdateStatus (id : Nat) (status : String) (changedBy : Nat)
    (reason : String) : BookingsEffect :=
  BookingsEffect.requestStatus "PUT" ("/api/bookings/" ++ toString id ++ "/status") status
    changedBy reason

/-- Effects of `handleStatusUpdate(bookingId, newStatus)`.  `user` is the user
of the session (reading `user.id` of a null user throws, which the handler
catches), `update` the backend's answer to the status call, the other two its
answers to the reload. -/
def handleStatusUpdate (user : Option User) (bookingId : Nat) (newStatus : String)
    (update : Outcome Unit) (bookingsFetch : Outcome (List Booking))
    (hotelsFetch : Outcome (List Hotel)) : List BookingsEffect :=
  BookingsEffect.setUpdatingBooking (some bookingId) ::
    (match user with
     | none =>
        [BookingsEffect.consoleError "Error updating booking status:",
         BookingsEffect.setMessage "error" "Error updating booking status. Please try again."]
     | some u =>
        bookingServiceUpdateStatus bookingId newStatus u.id
            ("Status updated by admin to " ++ newStatus) ::
          (match update with
           | Outcome.resolved _ =>
              BookingsEffect.setMessage "success" "Booking status updated successfully!" ::
                bookingsLoadData bookingsFetch hotelsFetch
           | Outcome.rejected =>
              [BookingsEffect.consoleError "Error updating booking status:",
               BookingsEffect.setMessage "error"
                 "Error updating booking status. Please try again."])) ++
    [BookingsEffect.setUpdatingBooking none]

/-! ## `components/Dashboard/Dashboard.js`: loading and rendering -/

/-- The state `stats` of the Dashboard. -/
structure Stats where
  totalHotels : Nat
  totalRooms : Nat
  totalBookings : Nat
  activeBookings : Nat
  availableRooms : Nat
  occupiedRooms : Nat
  revenue : ℚ
  occupancyRate : ℚ
deriving DecidableEq

/-- The state of the Dashboard. -/
structure DashboardState where
  stats : Stats
  recentBookings : List Booking
  loading : Bool
  error : String
deriving DecidableEq

/-- The initial state of the Dashboard. -/
def DashboardState.initial : DashboardState :=
  { stats := { totalHotels := 0, totalRooms := 0, totalBookings := 0, activeBookings := 0,
               availableRooms := 0, occupiedRooms := 0, revenue := 0, occupancyRate := 0 },
    recentBookings := [], loading := true, error := "" }

/-- The state after a run of `loadDashboardData`, given the backend's answers
to the three fetches that `Promise.all` awaits. -/
def loadDashboardData (st : DashboardState) (hotelsFetch : Outcome (List Hotel))
    (roomsFetch : Outcome (List Room)) (bookingsFetch : Outcome (List Booking)) :
    DashboardState :=
  match hotelsFetch, roomsFetch, bookingsFetch with
  | Outcome.resolved hotels, Outcome.resolved rooms, Outcome.resolved bookings =>
    { st with
      stats :=
        { totalHotels := hotels.length,
          totalRooms := rooms.length,
          totalBookings := bookings.length,
          activeBookings := (bookings.filter (fun b =>
            ["PENDING", "CONFIRMED", "CHECKED_IN"].contains b.bookingStatus)).length,
          availableRooms := (rooms.filter (fun r => r.status = "AVAILABLE")).length,
          occupiedRooms := (rooms.filter (fun r => r.status = "OCCUPIED")).length,
          revenue := revenue bookings,
          occupancyRate := occupancyRate rooms },
      recentBookings := recentBookings bookings,
      loading := false }
  | _, _, _ => { st with error := "Failed to load dashboard data", loading := false }

/-- What the Dashboard renders. -/
inductive DashboardScreen where
  | loading
  | error (text : String)
  | dashboard (stats : Stats) (recent : List Booking)
deriving DecidableEq

/-- The render of the Dashboard: the loading screen, the error screen with its
Retry button, or the dashboard. -/
def dashboardRender (st : DashboardState) : DashboardScreen :=
  if st.loading then DashboardScreen.loading
  else if st.error ≠ "" then DashboardScreen.error st.error
  else DashboardScreen.dashboard st.stats st.recentBookings

/-! ## Page reload -/

/-- A reload of the page: `localStorage` persists, the location is kept, and
the React state of `AuthProvider` starts again from its initial values. -/
def pageReload (st : Session) : Session :=
  { st with user := none, loading := true }

/-! ## Sample data -/

/-- Sample data: a backend that answers every request with the given
response. -/
def backendAnswering (response : LoginResponse) :
    RequestConfig → Except HttpError LoginResponse :=
  fun _ => Except.ok response

/-- Sample data: a backend that rejects every request with the given status. -/
def backendRejecting (status : Nat) : RequestConfig → Except HttpError LoginResponse :=
  fun _ => Except.error { status := some status }

/-- Sample data: a session with empty storage and no user, on the login
page. -/
def freshSession : Session :=
  { storage := fun _ => none, href := "/login", user := none, loading := false }

/-- Sample data: a user record with the given role. -/
def userWithRole (role : String) : User :=
  { id := 1, firstName := "Ada", lastName := "Byron", email := "ada@example.com", role := role }

/-- Sample data: a serialisation of user records by their email, in which the
text `null` reads back as `null`. -/
def sampleJson : Json :=
  { stringify := fun u => u.email,
    parse := fun s =>
      if s = "null" then some none else some (some { userWithRole "ADMIN" with email := s }) }

/-- Sample data: a serialisation of user records by their email that reads back
only text with an `@` in it. -/
def strictJson : Json :=
  { stringify := fun u => u.email,
    parse := fun s =>
      if '@' ∈ s.toList then some (some { userWithRole "ADMIN" with email := s }) else none }

/-- Sample data: a booking with the given id and check-in time. -/
def bookingAt (id : Nat) (checkIn : Int) : Booking :=
  { id := id, hotelId := 1, bookingStatus := "CONFIRMED", paymentStatus := "PAID",
    checkInDate := checkIn, createdAt := 0, totalAmount := none }

/-! ## Theorems -/

/-! ### Calendar lemmas -/

theorem monthOfYearDay_cases (leap d : Int) :
    (d < 31 ∧ monthOfYearDay leap d = 0) ∨
    (31 ≤ d ∧ d < 59 + leap ∧ monthOfYearDay leap d = 1) ∨
    (59 + leap ≤ d ∧ d < 90 + leap ∧ monthOfYearDay leap d = 2) ∨
    (90 + leap ≤ d ∧ d < 120 + leap ∧ monthOfYearDay leap d = 3) ∨
    (120 + leap ≤ d ∧ d < 151 + leap ∧ monthOfYearDay leap d = 4) ∨
    (151 + leap ≤ d ∧ d < 181 + leap ∧ monthOfYearDay leap d = 5) ∨
    (181 + leap ≤ d ∧ d < 212 + leap ∧ monthOfYearDay leap d = 6) ∨
    (212 + leap ≤ d ∧ d < 243 + leap ∧ monthOfYearDay leap d = 7) ∨
    (243 + leap ≤ d ∧ d < 273 + leap ∧ monthOfYearDay leap d = 8) ∨
    (273 + leap ≤ d ∧ d < 304 + leap ∧ monthOfYearDay leap d = 9) ∨
    (304 + leap ≤ d ∧ d < 334 + leap ∧ monthOfYearDay leap d = 10) ∨
    (334 + leap ≤ d ∧ monthOfYearDay leap d = 11) := by
  unfold monthOfYearDay
  by_cases h0 : d < 31
  · simp only [if_pos h0]
    exact Or.inl ⟨h0, trivial⟩
  simp only [if_neg h0]
  by_cases h1 : d < 59 + leap
  · simp only [if_pos h1]
    exact Or.inr (Or.inl ⟨not_lt.mp h0, h1, trivial⟩)
  simp only [if_neg h1]
  by_cases h2 : d < 90 + leap
  · simp only [if_pos h2]
    exact Or.inr (Or.inr (Or.inl ⟨not_lt.mp h1, h2, trivial⟩))
  simp only [if_neg h2]
  by_cases h3 : d < 120 + leap
  · simp only [if_pos h3]
    exact Or.inr (Or.inr (Or.inr (Or.inl ⟨not_lt.mp h2, h3, trivial⟩)))
  simp only [if_neg h3]
  by_cases h4 : d < 151 + leap
  · simp only [if_pos h4]
    exact Or.inr (Or.inr (Or.inr (Or.inr (Or.inl ⟨not_lt.mp h3, h4, trivial⟩))))
  simp only [if_neg h4]
  by_cases h5 : d < 181 + leap
  · simp only [if_pos h5]
    exact Or.inr (Or.inr (Or.inr (Or.inr (Or.inr (Or.inl ⟨not_lt.mp h4, h5, trivial⟩)))))
  simp only [if_neg h5]
  by_cases h6 : d < 212 + leap
  · simp only [if_pos h6]
    exact Or.inr (Or.inr (Or.inr (Or.inr (Or.inr (Or.inr (Or.inl ⟨not_lt.mp h5, h6, trivial⟩))))))
  simp only [if_neg h6]
  by_cases h7 : d < 243 + leap
  · simp only [if_pos h7]
    exact Or.inr (Or.inr (Or.inr (Or.inr (Or.inr (Or.inr (Or.inr (Or.inl ⟨not_lt.mp h6, h7, trivial⟩)))))))
  simp only [if_neg h7]
  by_cases h8 : d < 273 + leap
  · simp only [if_pos h8]
    exact Or.inr (Or.inr (Or.inr (Or.inr (Or.inr (Or.inr (Or.inr (Or.inr (Or.inl ⟨not_lt.mp h7, h8, trivial⟩))))))))
  simp only [if_neg h8]
  by_cases h9 : d < 304 + leap
  · simp only [if_pos h9]
    exact Or.inr (Or.inr (Or.inr (Or.inr (Or.inr (Or.inr (Or.inr (Or.inr (Or.inr (Or.inl ⟨not_lt.mp h8, h9, trivial⟩)))))))))
  simp only [if_neg h9]
  by_cases h10 : d < 334 + leap
  · simp only [if_pos h10]
    exact Or.inr (Or.inr (Or.inr (Or.inr (Or.inr (Or.inr (Or.inr (Or.inr (Or.inr (Or.inr (Or.inl ⟨not_lt.mp h9, h10, trivial⟩))))))))))
  simp only [if_neg h10]
  exact Or.inr (Or.inr (Or.inr (Or.inr (Or.inr (Or.inr (Or.inr (Or.inr (Or.inr (Or.inr (Or.inr ⟨not_lt.mp h10, trivial⟩))))))))))

theorem monthStart_values (leap : Int) :
    monthStart leap 0 = 0 ∧ monthStart leap 1 = 31 ∧ monthStart leap 2 = 59 + leap ∧
    monthStart leap 3 = 90 + leap ∧ monthStart leap 4 = 120 + leap ∧
    monthStart leap 5 = 151 + leap ∧ monthStart leap 6 = 181 + leap ∧
    monthStart leap 7 = 212 + leap ∧ monthStart leap 8 = 243 + leap ∧
    monthStart leap 9 = 273 + leap ∧ monthStart leap 10 = 304 + leap ∧
    monthStart leap 11 = 334 + leap := by
  simp [monthStart]
theorem yearFromDay_spec (n : Int) :
    dayFromYear (yearFromDay n) ≤ n ∧ n < dayFromYear (yearFromDay n + 1) := by
  unfold yearFromDay
  simp only
  split_ifs with h1 h2
  · refine ⟨h1, ?_⟩
    unfold dayFromYear at *
    omega
  · refine ⟨?_, by simpa using h2⟩
    unfold dayFromYear at *
    omega
  · exact ⟨by omega, by omega⟩

theorem dayFromYear_succ (y : Int) :
    dayFromYear (y + 1) = dayFromYear y + 365 + inLeapYear y := by
  unfold dayFromYear inLeapYear
  split_ifs <;> omega

theorem dayWithinYear_bounds (n : Int) :
    0 ≤ dayWithinYear n ∧ dayWithinYear n < 365 + inLeapYear (yearFromDay n) := by
  have h := yearFromDay_spec n
  have h2 := dayFromYear_succ (yearFromDay n)
  unfold dayWithinYear
  omega

theorem inLeapYear_cases (y : Int) : inLeapYear y = 0 ∨ inLeapYear y = 1 := by
  unfold inLeapYear
  split_ifs <;> simp

theorem monthOfYearDay_bounds (leap d : Int) :
    0 ≤ monthOfYearDay leap d ∧ monthOfYearDay leap d ≤ 11 := by
  rcases monthOfYearDay_cases leap d with h | h | h | h | h | h | h | h | h | h | h | h <;>
    omega

/-- Every month but December is followed, 28 to 31 days after its start, by the
start of the next month of the same year. -/
theorem monthStart_succ (leap m : Int) (hl : leap = 0 ∨ leap = 1) (h0 : 0 ≤ m) (h1 : m ≤ 10) :
    monthStart leap m + 28 ≤ monthStart leap (m + 1) ∧
    monthStart leap (m + 1) ≤ monthStart leap m + 31 := by
  obtain ⟨v0, v1, v2, v3, v4, v5, v6, v7, v8, v9, v10, v11⟩ := monthStart_values leap
  have hm : m = 0 ∨ m = 1 ∨ m = 2 ∨ m = 3 ∨ m = 4 ∨ m = 5 ∨ m = 6 ∨ m = 7 ∨ m = 8 ∨
      m = 9 ∨ m = 10 := by omega
  rcases hm with h | h | h | h | h | h | h | h | h | h | h <;> subst h <;> norm_num <;> omega

theorem makeDay_civil (n : Int) :
    makeDay (yearFromDay n) (monthFromDay n) (dateFromDay n) = n := by
  have hm := monthOfYearDay_bounds (inLeapYear (yearFromDay n)) (dayWithinYear n)
  unfold makeDay dateFromDay monthFromDay
  simp only
  have e1 : monthOfYearDay (inLeapYear (yearFromDay n)) (dayWithinYear n) / 12 = 0 := by omega
  have e2 : monthOfYearDay (inLeapYear (yearFromDay n)) (dayWithinYear n) % 12 =
      monthOfYearDay (inLeapYear (yearFromDay n)) (dayWithinYear n) := by omega
  rw [e1, e2, add_zero]
  unfold dayWithinYear
  omega

theorem makeDay_nextMonth (n : Int) :
    n + 28 ≤ makeDay (yearFromDay n) (monthFromDay n + 1) (dateFromDay n) ∧
    makeDay (yearFromDay n) (monthFromDay n + 1) (dateFromDay n) ≤ n + 31 := by
  have hl := inLeapYear_cases (yearFromDay n)
  have hs := dayFromYear_succ (yearFromDay n)
  have hm := monthOfYearDay_bounds (inLeapYear (yearFromDay n)) (dayWithinYear n)
  unfold makeDay dateFromDay monthFromDay
  simp only
  generalize monthOfYearDay (inLeapYear (yearFromDay n)) (dayWithinYear n) = m at *
  by_cases h11 : m = 11
  · have e1 : (m + 1) / 12 = 1 := by omega
    have e2 : (m + 1) % 12 = 0 := by omega
    rw [e1, e2, hs, h11, (monthStart_values _).1, (monthStart_values _).2.2.2.2.2.2.2.2.2.2.2]
    unfold dayWithinYear
    omega
  · have e1 : (m + 1) / 12 = 0 := by omega
    have e2 : (m + 1) % 12 = m + 1 := by omega
    have e3 := monthStart_succ _ m hl hm.1 (by omega)
    rw [e1, e2, add_zero]
    unfold dayWithinYear
    omega

theorem day_bounds (t : Int) : day t * msPerDay ≤ t ∧ t < (day t + 1) * msPerDay := by
  unfold day msPerDay
  omega

theorem toDateString_eq_iff (tz a b : Int) :
    toDateString tz a = toDateString tz b ↔ day (localTime tz a) = day (localTime tz b) := by
  constructor
  · intro h
    have ha := makeDay_civil (day (localTime tz a))
    have hb := makeDay_civil (day (localTime tz b))
    simp only [toDateString, getFullYear, getMonth, getDate, DateString.mk.injEq] at h
    obtain ⟨h1, h2, h3⟩ := h
    rw [h1, h2, h3] at ha
    exact ha.symm.trans hb
  · intro h
    simp only [toDateString, getFullYear, getMonth, getDate, h]

theorem matchesDateRange_week (tz today checkIn : Int) :
    matchesDateRange tz "week" today checkIn = true ↔
      today ≤ checkIn ∧ checkIn ≤ today + 604800000 := by
  simp [matchesDateRange]

theorem matchesDateRange_past (tz today checkIn : Int) :
    matchesDateRange tz "past" today checkIn = true ↔ checkIn < today := by
  simp [matchesDateRange]

theorem matchesDateRange_today (tz today checkIn : Int) :
    matchesDateRange tz "today" today checkIn = true ↔
      toDateString tz checkIn = toDateString tz today := by
  simp [matchesDateRange]

theorem matchesDateRange_month (tz today checkIn : Int) :
    matchesDateRange tz "month" today checkIn = true ↔
      today ≤ checkIn ∧
      checkIn ≤ newDate tz (getFullYear tz today) (getMonth tz today + 1) (getDate tz today) := by
  simp [matchesDateRange]

/-- The upper bound of the month window is local midnight 28 to 31 days after
today's local midnight. -/
theorem nextMonth_bounds (tz today : Int) :
    (day (localTime tz today) + 28) * msPerDay - tz ≤
      newDate tz (getFullYear tz today) (getMonth tz today + 1) (getDate tz today) ∧
    newDate tz (getFullYear tz today) (getMonth tz today + 1) (getDate tz today) ≤
      (day (localTime tz today) + 31) * msPerDay - tz := by
  have h := makeDay_nextMonth (day (localTime tz today))
  unfold newDate getFullYear getMonth getDate
  unfold msPerDay
  omega

/-! ### Claims -/

/-- C11: `handleDelete` shows a confirmation text that contains the hotel's
name; when the dialog is declined nothing else happens (no request, no banner,
no reload); when it is accepted exactly one DELETE request is issued, the call
`hotelService.delete(id)` on `/api/hotels/{id}`, and it is the first request. -/
theorem handleDelete_confirmation (id : Nat) (name : String) (answer : String → Bool)
    (del : Outcome Unit) (fetch : Outcome (List Hotel)) :
    (∃ rest, handleDelete id name answer del fetch =
        Effect.confirm ("Are you sure you want to delete \"" ++ name ++
          "\"? This action cannot be undone.") :: rest) ∧
    (answer (deleteConfirmText name) = false →
        handleDelete id name answer del fetch = [Effect.confirm (deleteConfirmText name)]) ∧
    (answer (deleteConfirmText name) = true →
        (handleDelete id name answer del fetch).filter Effect.isDelete =
          [Effect.request "DELETE" ("/api/hotels/" ++ toString id)] ∧
        ((handleDelete id name answer del fetch).filter Effect.isRequest).head? =
          some (Effect.request "DELETE" ("/api/hotels/" ++ toString id))) := by
  refine ⟨⟨_, rfl⟩, ?_, ?_⟩
  · intro h
    simp [handleDelete, h]
  · intro h
    cases del <;> cases fetch <;>
      simp [handleDelete, h, loadHotels, hotelServiceDelete, hotelServiceGetAll, hotelPath,
        Effect.isDelete, Effect.isRequest, List.filter]

/-- C20: `getStatusInfo` is total on booking statuses: each of the five known
statuses gets its own table entry, and every other status value gets the
neutral entry with color `secondary` and the status value as label. -/
theorem getStatusInfo_total :
    getStatusInfo "PENDING" "booking" =
      { value := "PENDING", label := "Pending", color := "warning" } ∧
    getStatusInfo "CONFIRMED" "booking" =
      { value := "CONFIRMED", label := "Confirmed", color := "success" } ∧
    getStatusInfo "CHECKED_IN" "booking" =
      { value := "CHECKED_IN", label := "Checked In", color := "info" } ∧
    getStatusInfo "CHECKED_OUT" "booking" =
      { value := "CHECKED_OUT", label := "Checked Out", color := "secondary" } ∧
    getStatusInfo "CANCELLED" "booking" =
      { value := "CANCELLED", label := "Cancelled", color := "danger" } ∧
    (∀ status : String,
      status ∉ ["PENDING", "CONFIRMED", "CHECKED_IN", "CHECKED_OUT", "CANCELLED"] →
      getStatusInfo status "booking" =
        { value := status, label := status, color := "secondary" }) := by
  refine ⟨by decide, by decide, by decide, by decide, by decide, ?_⟩
  intro status h
  simp only [List.mem_cons, List.mem_singleton, List.not_mem_nil, or_false, not_or] at h
  obtain ⟨h1, h2, h3, h4, h5⟩ := h
  have e1 : ("PENDING" == status) = false := by simpa using Ne.symm h1
  have e2 : ("CONFIRMED" == status) = false := by simpa using Ne.symm h2
  have e3 : ("CHECKED_IN" == status) = false := by simpa using Ne.symm h3
  have e4 : ("CHECKED_OUT" == status) = false := by simpa using Ne.symm h4
  have e5 : ("CANCELLED" == status) = false := by simpa using Ne.symm h5
  simp [getStatusInfo, bookingStatuses, List.find?, e1, e2, e3, e4, e5]

/-- C17 (counterexample): with the clock at 2024-05-10T10:00Z in a UTC zone, a
check-in one hour later satisfies three of the four date-range predicates
(`today`, `week` and `month`), and a check-in ninety days later satisfies none
of them. -/
theorem dateRange_not_partition :
    (matchesDateRange 0 "today" 1715335200000 1715338800000 = true ∧
     matchesDateRange 0 "week" 1715335200000 1715338800000 = true ∧
     matchesDateRange 0 "month" 1715335200000 1715338800000 = true ∧
     matchesDateRange 0 "past" 1715335200000 1715338800000 = false) ∧
    (matchesDateRange 0 "today" 1715335200000 1723111200000 = false ∧
     matchesDateRange 0 "week" 1715335200000 1723111200000 = false ∧
     matchesDateRange 0 "month" 1715335200000 1723111200000 = false ∧
     matchesDateRange 0 "past" 1715335200000 1723111200000 = false) := by
  decide

/-- C17 (amended): for every clock reading and check-in time, `past` holds
exactly when the check-in is before the current instant, and then neither
`week` nor `month` holds; for a check-in no later than seven days after the
current instant exactly one of `week` and `past` holds. -/
theorem dateRange_past_exclusive (tz today checkIn : Int) :
    (matchesDateRange tz "past" today checkIn = true ↔ checkIn < today) ∧
    (matchesDateRange tz "past" today checkIn = true →
      matchesDateRange tz "week" today checkIn = false ∧
      matchesDateRange tz "month" today checkIn = false) ∧
    (checkIn ≤ today + 7 * 24 * 60 * 60 * 1000 →
      (matchesDateRange tz "week" today checkIn = true ∧
        matchesDateRange tz "past" today checkIn = false) ∨
      (matchesDateRange tz "week" today checkIn = false ∧
        matchesDateRange tz "past" today checkIn = true)) := by
  have hw := matchesDateRange_week tz today checkIn
  have hp := matchesDateRange_past tz today checkIn
  have hm := matchesDateRange_month tz today checkIn
  refine ⟨hp, ?_, ?_⟩
  · intro h
    have hlt := hp.mp h
    constructor
    · rw [Bool.eq_false_iff]
      intro hc
      have := (hw.mp hc).1
      omega
    · rw [Bool.eq_false_iff]
      intro hc
      have := (hm.mp hc).1
      omega
  · intro h
    by_cases hlt : checkIn < today
    · right
      refine ⟨?_, hp.mpr hlt⟩
      rw [Bool.eq_false_iff]
      intro hc
      have := (hw.mp hc).1
      omega
    · left
      refine ⟨hw.mpr ⟨by omega, by omega⟩, ?_⟩
      rw [Bool.eq_false_iff]
      intro hc
      exact hlt (hp.mp hc)

/-- C18 (counterexample): with the clock at 2024-05-10T10:00Z in a UTC zone, a
check-in at the start of that day (2024-05-10T00:00Z) falls on today's calendar
day and is rejected by both `week` and `month`. -/
theorem week_month_reject_start_of_today :
    toDateString 0 1715299200000 = toDateString 0 1715335200000 ∧
    matchesDateRange 0 "week" 1715335200000 1715299200000 = false ∧
    matchesDateRange 0 "month" 1715335200000 1715299200000 = false := by
  decide

/-- C18 (amended): `week` and `month` both accept every check-in that falls on
today's calendar day at or after the current instant, and both reject every
check-in before the current instant, in particular every check-in before the
start of today. -/
theorem week_month_from_now (tz today checkIn : Int) :
    (toDateString tz checkIn = toDateString tz today → today ≤ checkIn →
      matchesDateRange tz "week" today checkIn = true ∧
      matchesDateRange tz "month" today checkIn = true) ∧
    (checkIn < today →
      matchesDateRange tz "week" today checkIn = false ∧
      matchesDateRange tz "month" today checkIn = false) ∧
    (day (localTime tz checkIn) < day (localTime tz today) →
      matchesDateRange tz "week" today checkIn = false ∧
      matchesDateRange tz "month" today checkIn = false) := by
  have hw := matchesDateRange_week tz today checkIn
  have hm := matchesDateRange_month tz today checkIn
  have hb := nextMonth_bounds tz today
  have hrej : checkIn < today →
      matchesDateRange tz "week" today checkIn = false ∧
      matchesDateRange tz "month" today checkIn = false := by
    intro hlt
    constructor
    · rw [Bool.eq_false_iff]
      intro hc
      have := (hw.mp hc).1
      omega
    · rw [Bool.eq_false_iff]
      intro hc
      have := (hm.mp hc).1
      omega
  refine ⟨?_, hrej, ?_⟩
  · intro hday hle
    have hd := (toDateString_eq_iff tz checkIn today).mp hday
    have h1 := day_bounds (localTime tz checkIn)
    have h2 := day_bounds (localTime tz today)
    rw [hd] at h1
    unfold localTime msPerDay at *
    refine ⟨hw.mpr ⟨hle, by omega⟩, hm.mpr ⟨hle, by omega⟩⟩
  · intro hday
    apply hrej
    have h1 := day_bounds (localTime tz checkIn)
    have h2 := day_bounds (localTime tz today)
    unfold localTime msPerDay at *
    omega

/-- C19: a booking whose check-in falls two calendar days after today is, with
empty status and hotel filters, included in `filteredBookings` under the `week`
filter and excluded under the `past` filter. -/
theorem filteredBookings_two_days_ahead (tz today : Int) (booking : Booking)
    (bookings : List Booking) (hmem : booking ∈ bookings)
    (h2 : day (localTime tz booking.checkInDate) = day (localTime tz today) + 2) :
    booking ∈ filteredBookings tz today "" "" "week" bookings ∧
    booking ∉ filteredBookings tz today "" "" "past" bookings := by
  have h1 := day_bounds (localTime tz booking.checkInDate)
  have h3 := day_bounds (localTime tz today)
  rw [h2] at h1
  unfold localTime msPerDay at *
  have hw := matchesDateRange_week tz today booking.checkInDate
  have hp := matchesDateRange_past tz today booking.checkInDate
  constructor
  · simp only [filteredBookings, List.mem_filter]
    refine ⟨hmem, ?_⟩
    simp only [decide_True, Bool.true_or, Bool.true_and]
    exact hw.mpr ⟨by omega, by omega⟩
  · simp only [filteredBookings, List.mem_filter, not_and]
    intro _
    simp only [decide_True, Bool.true_or, Bool.true_and]
    intro hc
    have := hp.mp hc
    omega

/-- C19 (witness): booking 42, PENDING, checking in on 2024-05-12T00:00Z, with
the clock at 2024-05-10T10:00Z. -/
theorem filteredBookings_two_days_ahead_witness :
    day (localTime 0 1715472000000) = day (localTime 0 1715335200000) + 2 ∧
    ({ id := 42, hotelId := 7, bookingStatus := "PENDING", paymentStatus := "PENDING",
        checkInDate := 1715472000000, createdAt := 1715000000000, totalAmount := none } : Booking) ∈
      filteredBookings 0 1715335200000 "" "" "week"
        [{ id := 42, hotelId := 7, bookingStatus := "PENDING", paymentStatus := "PENDING",
           checkInDate := 1715472000000, createdAt := 1715000000000, totalAmount := none }] ∧
    ({ id := 42, hotelId := 7, bookingStatus := "PENDING", paymentStatus := "PENDING",
        checkInDate := 1715472000000, createdAt := 1715000000000, totalAmount := none } : Booking) ∉
      filteredBookings 0 1715335200000 "" "" "past"
        [{ id := 42, hotelId := 7, bookingStatus := "PENDING", paymentStatus := "PENDING",
           checkInDate := 1715472000000, createdAt := 1715000000000, totalAmount := none }] :=
  ⟨by decide,
   filteredBookings_two_days_ahead 0 1715335200000 _ _ (List.mem_singleton.mpr rfl) (by decide)⟩

/-! ### Sorting lemmas -/

theorem orderedInsert_perm {α : Type} (cmp : α → α → Int) (a : α) (l : List α) :
    (orderedInsert cmp a l).Perm (a :: l) := by
  induction l with
  | nil => exact List.Perm.refl _
  | cons b l ih =>
    unfold orderedInsert
    split_ifs
    · exact List.Perm.refl _
    · exact ((List.Perm.cons b ih).trans (List.Perm.swap a b l))

theorem arraySort_perm {α : Type} (cmp : α → α → Int) (l : List α) :
    (arraySort cmp l).Perm l := by
  induction l with
  | nil => exact List.Perm.refl _
  | cons a l ih =>
    exact (orderedInsert_perm cmp a _).trans (List.Perm.cons a ih)

theorem orderedInsert_newestFirst (a : Booking) (l : List Booking)
    (h : l.Pairwise (fun x y => y.createdAt ≤ x.createdAt)) :
    (orderedInsert compareCreatedAt a l).Pairwise (fun x y => y.createdAt ≤ x.createdAt) := by
  induction l with
  | nil => simp [orderedInsert]
  | cons b l ih =>
    rw [List.pairwise_cons] at h
    unfold orderedInsert
    split_ifs with hc
    · unfold compareCreatedAt at hc
      refine List.Pairwise.cons ?_ (List.Pairwise.cons h.1 h.2)
      intro y hy
      rcases List.mem_cons.mp hy with rfl | hy
      · omega
      · have := h.1 y hy
        omega
    · unfold compareCreatedAt at hc
      refine List.Pairwise.cons ?_ (ih h.2)
      intro y hy
      rcases List.mem_cons.mp ((orderedInsert_perm _ a l).mem_iff.mp hy) with rfl | hy
      · omega
      · exact h.1 y hy

theorem arraySort_newestFirst (l : List Booking) :
    (arraySort compareCreatedAt l).Pairwise (fun x y => y.createdAt ≤ x.createdAt) := by
  induction l with
  | nil => simp [arraySort]
  | cons a l ih => exact orderedInsert_newestFirst a _ ih

theorem orderedInsert_filter (t : Int) (a : Booking) (l : List Booking) :
    (orderedInsert compareCreatedAt a l).filter (fun x => x.createdAt == t) =
      (a :: l).filter (fun x => x.createdAt == t) := by
  induction l with
  | nil => rfl
  | cons b l ih =>
    unfold orderedInsert
    split_ifs with hc
    · rfl
    · unfold compareCreatedAt at hc
      rw [List.filter_cons, ih]
      by_cases ha : a.createdAt = t <;> by_cases hb : b.createdAt = t
      · omega
      · simp [List.filter_cons, ha, hb]
      · simp [List.filter_cons, ha, hb]
      · simp [List.filter_cons, ha, hb]

theorem arraySort_stable (t : Int) (l : List Booking) :
    (arraySort compareCreatedAt l).filter (fun x => x.createdAt == t) =
      l.filter (fun x => x.createdAt == t) := by
  induction l with
  | nil => rfl
  | cons a l ih =>
    show (orderedInsert compareCreatedAt a (arraySort compareCreatedAt l)).filter _ = _
    rw [orderedInsert_filter, List.filter_cons, List.filter_cons, ih]

/-- C16: the recent-bookings list is the prefix of length `min 5 n` of the
collection stably sorted by `createdAt` descending: together with the excluded
bookings `rest` it is a permutation of the collection, ordered newest first (so
no excluded booking is newer than an included one), in which the bookings of
each creation time stand in their original order. -/
theorem recentBookings_spec (bookings : List Booking) :
    ∃ rest : List Booking,
      (recentBookings bookings ++ rest).Perm bookings ∧
      (recentBookings bookings).length = min 5 bookings.length ∧
      (recentBookings bookings ++ rest).Pairwise (fun x y => y.createdAt ≤ x.createdAt) ∧
      (∀ x ∈ recentBookings bookings, ∀ y ∈ rest, y.createdAt ≤ x.createdAt) ∧
      (∀ t : Int, (recentBookings bookings ++ rest).filter (fun x => x.createdAt == t) =
        bookings.filter (fun x => x.createdAt == t)) := by
  refine ⟨(arraySort compareCreatedAt bookings).drop 5, ?_, ?_, ?_, ?_, ?_⟩
  · unfold recentBookings
    rw [List.take_append_drop]
    exact arraySort_perm _ _
  · unfold recentBookings
    rw [List.length_take, (arraySort_perm compareCreatedAt bookings).length_eq]
  · unfold recentBookings
    rw [List.take_append_drop]
    exact arraySort_newestFirst _
  · have h := arraySort_newestFirst bookings
    rw [← List.take_append_drop 5 (arraySort compareCreatedAt bookings),
      List.pairwise_append] at h
    exact h.2.2
  · intro t
    unfold recentBookings
    rw [List.take_append_drop]
    exact arraySort_stable t bookings

/-! ### Number lemmas -/

theorem roundHalfEven_cases (q : ℚ) :
    roundHalfEven q = ⌊q⌋ ∧ q - ⌊q⌋ ≤ 1 / 2 ∨ roundHalfEven q = ⌊q⌋ + 1 ∧ 1 / 2 ≤ q - ⌊q⌋ := by
  unfold roundHalfEven
  split_ifs with h1 h2 h3
  · exact Or.inl ⟨rfl, le_of_lt h1⟩
  · exact Or.inr ⟨rfl, le_of_lt h2⟩
  · exact Or.inl ⟨rfl, not_lt.mp h2⟩
  · exact Or.inr ⟨rfl, not_lt.mp h1⟩

theorem roundHalfEven_error (q : ℚ) : |(roundHalfEven q : ℚ) - q| ≤ 1 / 2 := by
  have h1 := Int.floor_le q
  have h2 := Int.lt_floor_add_one q
  rw [abs_le]
  rcases roundHalfEven_cases q with ⟨h, hb⟩ | ⟨h, hb⟩
  · rw [h]
    constructor <;> linarith
  · rw [h]
    push_cast
    constructor <;> linarith

theorem roundHalfEven_intCast (n : Int) : roundHalfEven (n : ℚ) = n := by
  unfold roundHalfEven
  simp

theorem roundHalfEven_nonneg (q : ℚ) (h : 0 ≤ q) : 0 ≤ roundHalfEven q := by
  have h0 : 0 ≤ ⌊q⌋ := Int.floor_nonneg.mpr h
  rcases roundHalfEven_cases q with ⟨h1, _⟩ | ⟨h1, _⟩ <;> omega

/-- A value near enough to an integer rounds to it. -/
theorem roundHalfEven_eq (q : ℚ) (m : Int) (h : |q - m| < 1 / 2) : roundHalfEven q = m := by
  rw [abs_lt] at h
  have h1 := Int.floor_le q
  have h2 := Int.lt_floor_add_one q
  rcases roundHalfEven_cases q with ⟨h3, hb⟩ | ⟨h3, hb⟩
  · rw [h3]
    have a1 : ((⌊q⌋ : Int) : ℚ) < (m : ℚ) + 1 := by linarith
    have a2 : (m : ℚ) < (⌊q⌋ : ℚ) + 1 := by linarith
    have b1 : ⌊q⌋ < m + 1 := by exact_mod_cast a1
    have b2 : m < ⌊q⌋ + 1 := by exact_mod_cast a2
    omega
  · rw [h3]
    have a1 : ((⌊q⌋ : Int) : ℚ) + 1 < (m : ℚ) + 1 := by linarith
    have a2 : (m : ℚ) < (⌊q⌋ : ℚ) + 1 + 1 := by linarith
    have b1 : ⌊q⌋ + 1 < m + 1 := by exact_mod_cast a1
    have b2 : m < ⌊q⌋ + 1 + 1 := by exact_mod_cast a2
    omega

theorem fl_zero : fl 0 = 0 := by
  simp [fl]

theorem fl_nonneg (q : ℚ) (h : 0 ≤ q) : 0 ≤ fl q := by
  unfold fl
  split_ifs with h0
  · exact le_refl _
  · have hu : (0 : ℚ) < 2 ^ (Int.log 2 |q| - 52) := zpow_pos (by norm_num) _
    have hr := roundHalfEven_nonneg (q / 2 ^ (Int.log 2 |q| - 52)) (div_nonneg h hu.le)
    exact mul_nonneg (by exact_mod_cast hr) hu.le

/-- The relative error of rounding to a double is at most `2 ^ (-53)`. -/
theorem fl_error (q : ℚ) : |fl q - q| ≤ |q| * 2 ^ (-53 : ℤ) := by
  unfold fl
  split_ifs with h0
  · simp [h0]
  · have hq : 0 < |q| := abs_pos.mpr h0
    have hu : (0 : ℚ) < 2 ^ (Int.log 2 |q| - 52) := zpow_pos (by norm_num) _
    have hlog : ((2 : ℕ) : ℚ) ^ Int.log 2 |q| ≤ |q| := Int.zpow_log_le_self (by norm_num) hq
    have hr := roundHalfEven_error (q / 2 ^ (Int.log 2 |q| - 52))
    have e1 : (roundHalfEven (q / 2 ^ (Int.log 2 |q| - 52)) : ℚ) * 2 ^ (Int.log 2 |q| - 52) - q =
        ((roundHalfEven (q / 2 ^ (Int.log 2 |q| - 52)) : ℚ) - q / 2 ^ (Int.log 2 |q| - 52)) *
          2 ^ (Int.log 2 |q| - 52) := by
      field_simp
    rw [e1, abs_mul, abs_of_pos hu]
    have e2 : (2 : ℚ) ^ (Int.log 2 |q| - 52) = 2 ^ Int.log 2 |q| * 2 ^ (-53 : ℤ) * 2 := by
      rw [zpow_sub₀ (by norm_num)]
      norm_num
      ring
    calc |(roundHalfEven (q / 2 ^ (Int.log 2 |q| - 52)) : ℚ) - q / 2 ^ (Int.log 2 |q| - 52)| *
          2 ^ (Int.log 2 |q| - 52)
        ≤ 1 / 2 * 2 ^ (Int.log 2 |q| - 52) := mul_le_mul_of_nonneg_right hr hu.le
      _ = 2 ^ Int.log 2 |q| * 2 ^ (-53 : ℤ) := by rw [e2]; ring
      _ ≤ |q| * 2 ^ (-53 : ℤ) := by
          apply mul_le_mul_of_nonneg_right _ (by positivity)
          simpa using hlog

/-- Evaluation of `fl` at a positive number from its binary exponent `e` and
the 53-bit integer `m` nearest to the scaled number. -/
theorem fl_eq (q : ℚ) (e m : Int) (h1 : 2 ^ e ≤ q) (h2 : q < 2 ^ (e + 1))
    (hm : |q / 2 ^ (e - 52) - m| < 1 / 2) : fl q = m * 2 ^ (e - 52) := by
  have hpos : (0 : ℚ) < 2 ^ e := zpow_pos (by norm_num) _
  have hq : 0 < q := lt_of_lt_of_le hpos h1
  have habs : |q| = q := abs_of_pos hq
  have hlog : Int.log 2 q = e := by
    apply le_antisymm
    · have := (Int.lt_zpow_iff_log_lt (R := ℚ) (b := 2) (by norm_num) hq (x := e + 1)).mp
        (by simpa using h2)
      omega
    · exact (Int.zpow_le_iff_le_log (R := ℚ) (b := 2) (by norm_num) hq).mp (by simpa using h1)
  unfold fl
  rw [if_neg (ne_of_gt hq), habs, hlog, roundHalfEven_eq _ m hm]

/-- A whole number up to `2 ^ 53` is a double. -/
theorem fl_natCast (n : ℕ) (h : n ≤ 2 ^ 53) : fl (n : ℚ) = n := by
  by_cases h0 : n = 0
  · subst h0
    simpa using fl_zero
  have hn : (0 : ℚ) < n := by exact_mod_cast Nat.pos_of_ne_zero h0
  have hlog : Int.log 2 |(n : ℚ)| = (Nat.log 2 n : ℤ) := by
    rw [abs_of_pos hn, Int.log_natCast]
  have hle : Nat.log 2 n ≤ 53 := by
    have h1 : 2 ^ Nat.log 2 n ≤ n := Nat.pow_log_le_self 2 h0
    exact (Nat.pow_le_pow_iff_right (by norm_num)).mp (le_trans h1 h)
  unfold fl
  rw [if_neg (ne_of_gt hn), hlog]
  by_cases h53 : Nat.log 2 n = 53
  · have h1 : 2 ^ Nat.log 2 n ≤ n := Nat.pow_log_le_self 2 h0
    rw [h53] at h1
    have hn53 : n = 2 ^ 53 := le_antisymm h h1
    rw [h53, hn53]
    have e1 : ((2 ^ 53 : ℕ) : ℚ) / 2 ^ (((53 : ℕ) : ℤ) - 52) = ((2 ^ 52 : ℤ) : ℚ) := by norm_num
    rw [e1, roundHalfEven_intCast]
    norm_num
  · obtain ⟨k, hk⟩ : ∃ k : ℕ, Nat.log 2 n + k = 52 := ⟨52 - Nat.log 2 n, by omega⟩
    have e0 : ((Nat.log 2 n : ℕ) : ℤ) - 52 = -(k : ℤ) := by omega
    have e1 : (n : ℚ) / 2 ^ (((Nat.log 2 n : ℕ) : ℤ) - 52) = (((n * 2 ^ k : ℕ) : ℤ) : ℚ) := by
      rw [e0, zpow_neg, zpow_natCast]
      push_cast
      field_simp
    rw [e1, roundHalfEven_intCast, e0, zpow_neg, zpow_natCast]
    push_cast
    field_simp

/-- Left-to-right summation of whole amounts is exact while the total stays
within `2 ^ 53`. -/
theorem foldl_fadd_exact (l : List Booking) (a : ℕ)
    (hw : ∀ b ∈ l, ∃ n : ℕ, exactAmount b = n)
    (hs : (a : ℚ) + (l.map exactAmount).sum ≤ 2 ^ 53) :
    l.foldl (fun sum b => fadd sum (amountOf b)) (a : ℚ) = (a : ℚ) + (l.map exactAmount).sum := by
  induction l generalizing a with
  | nil => simp
  | cons b l ih =>
    obtain ⟨n, hn⟩ := hw b (List.mem_cons_self _ _)
    have hrest : ∀ c ∈ l, ∃ m : ℕ, exactAmount c = m :=
      fun c hc => hw c (List.mem_cons_of_mem _ hc)
    have hnonneg : (0 : ℚ) ≤ (l.map exactAmount).sum := by
      apply List.sum_nonneg
      intro x hx
      obtain ⟨c, hc, rfl⟩ := List.mem_map.mp hx
      obtain ⟨m, hm⟩ := hrest c hc
      rw [hm]
      exact Nat.cast_nonneg m
    simp only [List.map_cons, List.sum_cons, hn] at hs
    have hcast : ((a + n : ℕ) : ℚ) ≤ 2 ^ 53 := by
      push_cast
      linarith
    have han : a + n ≤ 2 ^ 53 := by exact_mod_cast hcast
    have hamount : amountOf b = n := by
      unfold exactAmount at hn
      unfold amountOf
      cases hb : b.totalAmount with
      | none =>
        rw [hb] at hn
        simpa using hn
      | some q =>
        rw [hb] at hn
        simp only [Option.getD_some] at hn
        rw [hn]
        exact fl_natCast n (by omega)
    have hstep : fadd (a : ℚ) (amountOf b) = ((a + n : ℕ) : ℚ) := by
      rw [hamount]
      unfold fadd
      rw [← Nat.cast_add]
      exact fl_natCast (a + n) han
    simp only [List.foldl_cons, List.map_cons, List.sum_cons, hn]
    rw [hstep, ih (a + n) hrest (by push_cast; linarith)]
    push_cast
    ring

/-- For whole amounts with a total within `2 ^ 53` the revenue is the exact
total of the PAID bookings. -/
theorem revenue_eq_paidTotal (bookings : List Booking)
    (hw : ∀ b ∈ bookings, b.paymentStatus = "PAID" → ∃ n : ℕ, exactAmount b = n)
    (hs : paidTotal bookings ≤ 2 ^ 53) : revenue bookings = paidTotal bookings := by
  unfold revenue paidTotal at *
  have h := foldl_fadd_exact (bookings.filter (fun b => b.paymentStatus = "PAID")) 0
    (by
      intro b hb
      rw [List.mem_filter] at hb
      exact hw b hb.1 (by simpa using hb.2))
    (by simpa using hs)
  simpa using h

theorem paidTotal_perm (l₁ l₂ : List Booking) (h : l₁.Perm l₂) : paidTotal l₁ = paidTotal l₂ := by
  unfold paidTotal
  exact ((h.filter _).map _).sum_eq

theorem roundHalfEven_tie (m : Int) :
    roundHalfEven ((m : ℚ) + 1 / 2) = if m % 2 = 0 then m else m + 1 := by
  have hf : ⌊(m : ℚ) + 1 / 2⌋ = m := by
    rw [Int.floor_eq_iff]
    constructor <;> linarith
  unfold roundHalfEven
  rw [hf]
  have e1 : (m : ℚ) + 1 / 2 - m = 1 / 2 := by ring
  rw [e1]
  simp

/-- Evaluation of `fl` at a positive number that lies halfway between two
neighbouring doubles: the one with the even 53-bit integer is taken. -/
theorem fl_eq_tie (q : ℚ) (e m : Int) (h1 : 2 ^ e ≤ q) (h2 : q < 2 ^ (e + 1))
    (hm : q / 2 ^ (e - 52) = (m : ℚ) + 1 / 2) :
    fl q = ((if m % 2 = 0 then m else m + 1 : Int) : ℚ) * 2 ^ (e - 52) := by
  have hpos : (0 : ℚ) < 2 ^ e := zpow_pos (by norm_num) _
  have hq : 0 < q := lt_of_lt_of_le hpos h1
  have habs : |q| = q := abs_of_pos hq
  have hlog : Int.log 2 q = e := by
    apply le_antisymm
    · have := (Int.lt_zpow_iff_log_lt (R := ℚ) (b := 2) (by norm_num) hq (x := e + 1)).mp
        (by simpa using h2)
      omega
    · exact (Int.zpow_le_iff_le_log (R := ℚ) (b := 2) (by norm_num) hq).mp (by simpa using h1)
  unfold fl
  rw [if_neg (ne_of_gt hq), habs, hlog, hm, roundHalfEven_tie]

/-- The double computed for the percentage `(occ / total) * 100` is not
negative and differs from the exact percentage by at most `201 * 2 ^ (-53)`. -/
theorem percentage_error (occ total : ℕ) (h0 : 0 < total) (hle : occ ≤ total) :
    0 ≤ fmul (fdiv occ total) 100 ∧
    |fmul (fdiv (occ : ℚ) total) 100 - 100 * occ / total| ≤ 201 * 2 ^ (-53 : ℤ) := by
  have ht : (0 : ℚ) < total := by exact_mod_cast h0
  have hr0 : (0 : ℚ) ≤ (occ : ℚ) / total := by positivity
  have hr1 : (occ : ℚ) / total ≤ 1 := by
    rw [div_le_one ht]
    exact_mod_cast hle
  have ha0 := fl_nonneg _ hr0
  have hx0 := fl_nonneg (fl ((occ : ℚ) / total) * 100) (by positivity)
  have e1 := fl_error ((occ : ℚ) / total)
  have e2 := fl_error (fl ((occ : ℚ) / total) * 100)
  rw [abs_of_nonneg hr0] at e1
  rw [abs_of_nonneg (by positivity : 0 ≤ fl ((occ : ℚ) / total) * 100)] at e2
  have hu : (2 : ℚ) ^ (-53 : ℤ) = 1 / 9007199254740992 := by norm_num
  rw [hu] at e1 e2 ⊢
  rw [abs_le] at e1 e2 ⊢
  have e3 : 100 * (occ : ℚ) / total = 100 * (occ / total) := by ring
  unfold fmul fdiv
  rw [e3]
  refine ⟨hx0, ?_⟩
  constructor <;> nlinarith

/-- A number within `2 ^ (-42)` of a fraction with a denominator below `2 ^ 33`
has its floor within one below the fraction. -/
theorem floor_near_fraction (x : ℚ) (N : ℤ) (D : ℕ) (hD0 : 0 < D) (hD : D < 2 ^ 33)
    (hx : |x - (N : ℚ) / D| ≤ 2 ^ (-42 : ℤ)) :
    (N : ℚ) / D - 1 ≤ (⌊x⌋ : ℚ) ∧ (⌊x⌋ : ℚ) ≤ (N : ℚ) / D := by
  have hDq : (0 : ℚ) < D := by exact_mod_cast hD0
  have hDlt : (D : ℚ) < 2 ^ 33 := by exact_mod_cast hD
  have hu : (2 : ℚ) ^ (-42 : ℤ) = 1 / 4398046511104 := by norm_num
  rw [hu, abs_le] at hx
  have h1 := Int.floor_le x
  have h2 := Int.lt_floor_add_one x
  have hgap : (D : ℚ) * (1 / 4398046511104) < 1 := by
    have : (D : ℚ) * (1 / 4398046511104) < 2 ^ 33 * (1 / 4398046511104) :=
      mul_lt_mul_of_pos_right hDlt (by norm_num)
    linarith [this, (by norm_num : (2 : ℚ) ^ 33 * (1 / 4398046511104) < 1)]
  constructor
  · -- otherwise the fraction exceeds `⌊x⌋ + 1` by at least `1 / D`
    by_contra hc
    push_neg at hc
    have hc2 : ((⌊x⌋ + 1 : ℤ) : ℚ) * D < N := by
      push_cast
      have := (lt_div_iff₀ hDq).mp (by linarith : (⌊x⌋ : ℚ) + 1 < (N : ℚ) / D)
      linarith
    have hc3 : (⌊x⌋ + 1) * (D : ℤ) < N := by exact_mod_cast hc2
    have hc4 : (⌊x⌋ + 1) * (D : ℤ) + 1 ≤ N := by omega
    have hc5 : ((⌊x⌋ : ℚ) + 1) * D + 1 ≤ N := by exact_mod_cast hc4
    have hc6 : (⌊x⌋ : ℚ) + 1 + 1 / D ≤ (N : ℚ) / D := by
      rw [le_div_iff₀ hDq]
      field_simp
      linarith
    have hc7 : (1 : ℚ) / 4398046511104 < 1 / D := by
      rw [lt_div_iff₀ hDq]
      linarith
    linarith
  · by_contra hc
    push_neg at hc
    have hc2 : (N : ℚ) < ((⌊x⌋ : ℤ) : ℚ) * D := (div_lt_iff₀ hDq).mp hc
    have hc3 : N < ⌊x⌋ * (D : ℤ) := by exact_mod_cast hc2
    have hc4 : N + 1 ≤ ⌊x⌋ * (D : ℤ) := by omega
    have hc5 : (N : ℚ) + 1 ≤ (⌊x⌋ : ℚ) * D := by exact_mod_cast hc4
    have hc6 : (N : ℚ) / D + 1 / D ≤ (⌊x⌋ : ℚ) := by
      rw [← add_div, div_le_iff₀ hDq]
      linarith
    have hc7 : (1 : ℚ) / 4398046511104 < 1 / D := by
      rw [lt_div_iff₀ hDq]
      linarith
    linarith

/-- The rate of a non-empty collection is a tenth of the integer nearest to
ten times the computed percentage. -/
theorem occupancyRate_of_ne_nil (rooms : List Room) (h : rooms ≠ []) :
    occupancyRate rooms =
      ((⌊10 * fmul (fdiv ((rooms.filter (fun r => r.status = "OCCUPIED")).length : ℕ)
        (rooms.length : ℕ)) 100 + 1 / 2⌋ : ℤ) : ℚ) / 10 := by
  have hlen : 0 < rooms.length := List.length_pos.mpr h
  have hle : (rooms.filter (fun r => r.status = "OCCUPIED")).length ≤ rooms.length :=
    List.length_filter_le _ _
  have hx := (percentage_error _ _ hlen hle).1
  unfold occupancyRate toFixed1
  simp only [gt_iff_lt, hlen, if_true]
  rw [if_neg (not_lt.mpr hx)]

/-- The printed tenths `k` of the rate lie within one half of the exact number
of tenths `1000 * occ / total`. -/
theorem tenths_near_exact (occ total : ℕ) (h0 : 0 < total) (hle : occ ≤ total)
    (hlt : total < 2 ^ 32) :
    1000 * (occ : ℚ) / total - 1 / 2 ≤ (⌊10 * fmul (fdiv occ total) 100 + 1 / 2⌋ : ℚ) ∧
    (⌊10 * fmul (fdiv (occ : ℚ) total) 100 + 1 / 2⌋ : ℚ) ≤ 1000 * (occ : ℚ) / total + 1 / 2 := by
  have ht : (0 : ℚ) < total := by exact_mod_cast h0
  have herr := (percentage_error occ total h0 hle).2
  have hu : (2 : ℚ) ^ (-53 : ℤ) = 1 / 9007199254740992 := by norm_num
  have hu2 : (2 : ℚ) ^ (-42 : ℤ) = 1 / 4398046511104 := by norm_num
  rw [hu, abs_le] at herr
  have hfrac : (((2000 * occ + total : ℕ) : ℤ) : ℚ) / ((2 * total : ℕ) : ℚ) =
      1000 * (occ : ℚ) / total + 1 / 2 := by
    push_cast
    field_simp
    ring
  have h := floor_near_fraction (10 * fmul (fdiv occ total) 100 + 1 / 2)
    ((2000 * occ + total : ℕ) : ℤ) (2 * total) (by omega) (by omega)
    (by
      have e : 1000 * (occ : ℚ) / total = 10 * (100 * occ / total) := by ring
      rw [hfrac, hu2, abs_le, e]
      constructor <;> linarith [herr.1, herr.2])
  rw [hfrac] at h
  constructor <;> linarith [h.1, h.2]

/-- When exactly one room in 2000 is occupied the computed percentage is the
double 0.05, which is not below one twentieth. -/
theorem percentage_one_in_2000 : (1 : ℚ) / 20 ≤ fmul (fdiv 1 2000) 100 := by
  have h1 : fl ((1 / 2000) : ℚ) = (1152921504606847 / 2305843009213693952) := by
    rw [fl_eq (1 / 2000) (-11) 4611686018427388 (by norm_num) (by norm_num) (by norm_num [abs_lt])]
    norm_num
  have h2 : fl ((28823037615171175 / 576460752303423488) : ℚ) = (3602879701896397 / 72057594037927936) := by
    rw [fl_eq (28823037615171175 / 576460752303423488) (-5) 7205759403792794 (by norm_num) (by norm_num) (by norm_num [abs_lt])]
    norm_num
  unfold fmul fdiv
  rw [h1]
  norm_num
  rw [h2]
  norm_num

/-- C12 (counterexample): a collection of one available room is not empty and
has occupancy rate 0. -/
theorem occupancyRate_zero_nonempty :
    [roomWith 1 "AVAILABLE"] ≠ [] ∧ occupancyRate [roomWith 1 "AVAILABLE"] = 0 := by
  refine ⟨by simp, ?_⟩
  simp [occupancyRate, roomWith, List.filter, fdiv, fmul, fl_zero, toFixed1]
  norm_num

/-- C12 (amended): the occupancy rate lies in [0, 100] and is 0 for the empty
collection; for a collection of fewer than `2 ^ 32` rooms it is 0 exactly when
the collection is empty or fewer than one room in 2000 is occupied. -/
theorem occupancyRate_bounds (rooms : List Room) :
    0 ≤ occupancyRate rooms ∧ occupancyRate rooms ≤ 100 ∧
    (rooms = [] → occupancyRate rooms = 0) ∧
    (rooms.length < 2 ^ 32 →
      (occupancyRate rooms = 0 ↔
        rooms = [] ∨
        2000 * (rooms.filter (fun r => r.status = "OCCUPIED")).length < rooms.length)) := by
  by_cases hnil : rooms = []
  · subst hnil
    simp [occupancyRate]
  have hlen : 0 < rooms.length := List.length_pos.mpr hnil
  have hle : (rooms.filter (fun r => r.status = "OCCUPIED")).length ≤ rooms.length :=
    List.length_filter_le _ _
  have hrate := occupancyRate_of_ne_nil rooms hnil
  obtain ⟨hx0, herr⟩ := percentage_error _ _ hlen hle
  generalize hocc : (rooms.filter (fun r => r.status = "OCCUPIED")).length = occ at *
  generalize htot : rooms.length = total at *
  have ht : (0 : ℚ) < total := by exact_mod_cast hlen
  have hr1 : 100 * (occ : ℚ) / total ≤ 100 := by
    rw [div_le_iff₀ ht]
    have : (occ : ℚ) ≤ total := by exact_mod_cast hle
    linarith
  have hu : (2 : ℚ) ^ (-53 : ℤ) = 1 / 9007199254740992 := by norm_num
  rw [hu, abs_le] at herr
  have hk0 : 0 ≤ ⌊10 * fmul (fdiv (occ : ℚ) total) 100 + 1 / 2⌋ :=
    Int.floor_nonneg.mpr (by linarith)
  have hk1 : ⌊10 * fmul (fdiv (occ : ℚ) total) 100 + 1 / 2⌋ < 1001 := by
    rw [Int.floor_lt]
    push_cast
    linarith [herr.2]
  have hk0q : (0 : ℚ) ≤ (⌊10 * fmul (fdiv (occ : ℚ) total) 100 + 1 / 2⌋ : ℚ) := by
    exact_mod_cast hk0
  have hk1q : (⌊10 * fmul (fdiv (occ : ℚ) total) 100 + 1 / 2⌋ : ℚ) ≤ 1000 := by
    have : ⌊10 * fmul (fdiv (occ : ℚ) total) 100 + 1 / 2⌋ ≤ 1000 := by omega
    exact_mod_cast this
  rw [hrate]
  refine ⟨by positivity, by linarith, fun h => absurd h hnil, ?_⟩
  intro hlt
  obtain ⟨hn1, hn2⟩ := tenths_near_exact occ total hlen hle hlt
  constructor
  · intro h0
    right
    have hk : ⌊10 * fmul (fdiv (occ : ℚ) total) 100 + 1 / 2⌋ = 0 := by
      have : (⌊10 * fmul (fdiv (occ : ℚ) total) 100 + 1 / 2⌋ : ℚ) = 0 := by linarith
      exact_mod_cast this
    rw [hk] at hn1
    have h2 : 1000 * (occ : ℚ) ≤ 1 / 2 * total := by
      have := (div_le_iff₀ ht).mp (by linarith : 1000 * (occ : ℚ) / total ≤ 1 / 2)
      linarith
    have h3 : ((2000 * occ : ℕ) : ℚ) ≤ (total : ℕ) := by
      push_cast
      linarith
    have h4 : 2000 * occ ≤ total := by exact_mod_cast h3
    rcases Nat.lt_or_ge (2000 * occ) total with h5 | h5
    · exact h5
    · exfalso
      have h6 : total = 2000 * occ := le_antisymm h5 h4
      have hocc0 : (0 : ℚ) < occ := by
        have : 0 < occ := by omega
        exact_mod_cast this
      have h7 : (occ : ℚ) / total = 1 / 2000 := by
        rw [h6]
        push_cast
        field_simp
        ring
      have h8 := percentage_one_in_2000
      unfold fmul fdiv at h8 hk
      rw [h7] at hk
      rw [Int.floor_eq_iff] at hk
      push_cast at hk
      linarith [hk.2]
  · intro h0
    rcases h0 with h0 | h0
    · exact absurd h0 hnil
    · have h1 : ((2000 * occ : ℕ) : ℚ) < (total : ℕ) := by exact_mod_cast h0
      push_cast at h1
      have h2 : 1000 * (occ : ℚ) / total < 1 / 2 := by
        rw [div_lt_iff₀ ht]
        linarith
      have h3 : (⌊10 * fmul (fdiv (occ : ℚ) total) 100 + 1 / 2⌋ : ℚ) < 1 := by linarith
      have h4 : ⌊10 * fmul (fdiv (occ : ℚ) total) 100 + 1 / 2⌋ < 1 := by exact_mod_cast h3
      have h5 : ⌊10 * fmul (fdiv (occ : ℚ) total) 100 + 1 / 2⌋ = 0 := by omega
      rw [h5]
      norm_num

/-- C13: the occupancy rate of the empty collection is 0, and that of a
non-empty collection (of fewer than `2 ^ 32` rooms, the limit of an array) is
the percentage `100 * occupied / total` rounded to one decimal place: a whole
number of tenths within one twentieth of the exact percentage. -/
theorem occupancyRate_rounded (rooms : List Room) (hlen : rooms.length < 2 ^ 32) :
    (rooms = [] → occupancyRate rooms = 0) ∧
    (rooms ≠ [] →
      (∃ k : ℤ, occupancyRate rooms = (k : ℚ) / 10) ∧
      |occupancyRate rooms -
        100 * ((rooms.filter (fun r => r.status = "OCCUPIED")).length : ℚ) / (rooms.length : ℚ)|
        ≤ 1 / 20) := by
  constructor
  · intro h
    subst h
    simp [occupancyRate]
  · intro hnil
    have hpos : 0 < rooms.length := List.length_pos.mpr hnil
    have hle : (rooms.filter (fun r => r.status = "OCCUPIED")).length ≤ rooms.length :=
      List.length_filter_le _ _
    have hrate := occupancyRate_of_ne_nil rooms hnil
    obtain ⟨hn1, hn2⟩ := tenths_near_exact _ _ hpos hle hlen
    refine ⟨⟨_, hrate⟩, ?_⟩
    rw [hrate, abs_le]
    have e : 1000 * ((rooms.filter (fun r => r.status = "OCCUPIED")).length : ℚ) / rooms.length =
        10 * (100 * ((rooms.filter (fun r => r.status = "OCCUPIED")).length : ℚ) /
          rooms.length) := by ring
    rw [e] at hn1 hn2
    constructor <;> linarith

/-- C13 (witness): one occupied room of two. -/
theorem occupancyRate_rounded_witness :
    [roomWith 1 "OCCUPIED", roomWith 2 "AVAILABLE"].length < 2 ^ 32 ∧
    |occupancyRate [roomWith 1 "OCCUPIED", roomWith 2 "AVAILABLE"] -
      100 * (([roomWith 1 "OCCUPIED", roomWith 2 "AVAILABLE"].filter
        (fun r => r.status = "OCCUPIED")).length : ℚ) /
        ([roomWith 1 "OCCUPIED", roomWith 2 "AVAILABLE"].length : ℚ)| ≤ 1 / 20 :=
  ⟨by decide,
   ((occupancyRate_rounded [roomWith 1 "OCCUPIED", roomWith 2 "AVAILABLE"] (by decide)).2
      (by simp)).2⟩

/-- C14: the revenue is the sum, accumulated in collection order, of the
amounts of exactly the PAID bookings: the empty collection gives 0, a booking
with another payment status contributes nothing wherever it stands, a PAID
booking adds its amount once, and for whole amounts with a total within
`2 ^ 53` the revenue is the exact sum of `totalAmount` over the PAID
bookings. -/
theorem revenue_sums_paid :
    revenue [] = 0 ∧
    (∀ (xs ys : List Booking) (b : Booking), b.paymentStatus ≠ "PAID" →
      revenue (xs ++ b :: ys) = revenue (xs ++ ys)) ∧
    (∀ (bs : List Booking) (b : Booking), b.paymentStatus = "PAID" →
      revenue (bs ++ [b]) = fadd (revenue bs) (amountOf b)) ∧
    (∀ bs : List Booking,
      (∀ b ∈ bs, b.paymentStatus = "PAID" → ∃ n : ℕ, exactAmount b = n) →
      paidTotal bs ≤ 2 ^ 53 → revenue bs = paidTotal bs) := by
  refine ⟨rfl, ?_, ?_, fun bs hw hs => revenue_eq_paidTotal bs hw hs⟩
  · intro xs ys b hb
    unfold revenue
    simp [List.filter_append, List.filter_cons, hb]
  · intro bs b hb
    unfold revenue
    simp [List.filter_append, List.filter_cons, hb, List.foldl_append]

/-- C14 (witness): two PAID bookings of 120 and 80 around a PENDING one of 999
give the revenue 200. -/
theorem revenue_sums_paid_witness :
    revenue ([paidBooking 1 120] ++
      { paidBooking 2 999 with paymentStatus := "PENDING" } :: [paidBooking 3 80]) = 200 := by
  rw [revenue_sums_paid.2.1 [paidBooking 1 120] [paidBooking 3 80] _ (by decide)]
  rw [revenue_sums_paid.2.2.2 _
    (by
      intro b hb _
      simp only [List.cons_append, List.nil_append, List.mem_cons, List.mem_singleton,
        List.not_mem_nil, or_false] at hb
      rcases hb with rfl | rfl
      · exact ⟨120, by simp [exactAmount, paidBooking]⟩
      · exact ⟨80, by simp [exactAmount, paidBooking]⟩)
    (by
      simp [paidTotal, paidBooking, exactAmount, List.filter]
      norm_num)]
  simp [paidTotal, paidBooking, exactAmount, List.filter]
  norm_num

/-- C15 (amended): for whole amounts with a total within `2 ^ 53` the revenue
does not depend on the order of the collection. -/
theorem revenue_perm_whole (l₁ l₂ : List Booking) (hp : l₁.Perm l₂)
    (hw : ∀ b ∈ l₁, b.paymentStatus = "PAID" → ∃ n : ℕ, exactAmount b = n)
    (hs : paidTotal l₁ ≤ 2 ^ 53) : revenue l₁ = revenue l₂ := by
  have h1 := revenue_eq_paidTotal l₁ hw hs
  have hperm := paidTotal_perm l₁ l₂ hp
  have h2 := revenue_eq_paidTotal l₂ (fun b hb => hw b (hp.mem_iff.mpr hb)) (hperm ▸ hs)
  rw [h1, h2, hperm]

/-- C15 (witness): the amounts 120, 80 and 200 in two orders. -/
theorem revenue_perm_whole_witness :
    [paidBooking 1 120, paidBooking 2 80, paidBooking 3 200].Perm
      [paidBooking 3 200, paidBooking 2 80, paidBooking 1 120] ∧
    paidTotal [paidBooking 1 120, paidBooking 2 80, paidBooking 3 200] ≤ 2 ^ 53 ∧
    revenue [paidBooking 1 120, paidBooking 2 80, paidBooking 3 200] =
      revenue [paidBooking 3 200, paidBooking 2 80, paidBooking 1 120] :=
  have hp : [paidBooking 1 120, paidBooking 2 80, paidBooking 3 200].Perm
      [paidBooking 3 200, paidBooking 2 80, paidBooking 1 120] :=
    (List.reverse_perm _).symm
  have hs : paidTotal [paidBooking 1 120, paidBooking 2 80, paidBooking 3 200] ≤ 2 ^ 53 := by
    simp [paidTotal, paidBooking, exactAmount, List.filter]
    norm_num
  ⟨hp, hs, revenue_perm_whole _ _ hp
    (by
      intro b hb _
      simp only [List.mem_cons, List.mem_singleton, List.not_mem_nil, or_false] at hb
      rcases hb with rfl | rfl | rfl
      · exact ⟨120, by simp [exactAmount, paidBooking]⟩
      · exact ⟨80, by simp [exactAmount, paidBooking]⟩
      · exact ⟨200, by simp [exactAmount, paidBooking]⟩)
    hs⟩

/-- C15 (counterexample): three PAID bookings with the amounts 0.1, 0.2 and 0.3
give the revenue 0.6000000000000001 in this order and 0.6 in the reverse
order. -/
theorem revenue_order_dependent :
    [paidBooking 1 (1 / 10), paidBooking 2 (2 / 10), paidBooking 3 (3 / 10)].Perm
      [paidBooking 3 (3 / 10), paidBooking 2 (2 / 10), paidBooking 1 (1 / 10)] ∧
    revenue [paidBooking 1 (1 / 10), paidBooking 2 (2 / 10), paidBooking 3 (3 / 10)] =
      (1351079888211149 / 2251799813685248) ∧
    revenue [paidBooking 3 (3 / 10), paidBooking 2 (2 / 10), paidBooking 1 (1 / 10)] =
      (5404319552844595 / 9007199254740992) ∧
    revenue [paidBooking 1 (1 / 10), paidBooking 2 (2 / 10), paidBooking 3 (3 / 10)] ≠
      revenue [paidBooking 3 (3 / 10), paidBooking 2 (2 / 10), paidBooking 1 (1 / 10)] := by
  have h1 : fl ((1 / 10) : ℚ) = (3602879701896397 / 36028797018963968) := by
    rw [fl_eq (1 / 10) (-4) 7205759403792794 (by norm_num) (by norm_num) (by norm_num [abs_lt])]
    norm_num
  have h2 : fl ((2 / 10) : ℚ) = (3602879701896397 / 18014398509481984) := by
    rw [fl_eq (2 / 10) (-3) 7205759403792794 (by norm_num) (by norm_num) (by norm_num [abs_lt])]
    norm_num
  have h3 : fl ((3 / 10) : ℚ) = (5404319552844595 / 18014398509481984) := by
    rw [fl_eq (3 / 10) (-2) 5404319552844595 (by norm_num) (by norm_num) (by norm_num [abs_lt])]
    norm_num
  have h1r : fl ((3602879701896397 / 36028797018963968) : ℚ) = (3602879701896397 / 36028797018963968) := by
    rw [fl_eq (3602879701896397 / 36028797018963968) (-4) 7205759403792794 (by norm_num) (by norm_num) (by norm_num [abs_lt])]
    norm_num
  have h3r : fl ((5404319552844595 / 18014398509481984) : ℚ) = (5404319552844595 / 18014398509481984) := by
    rw [fl_eq (5404319552844595 / 18014398509481984) (-2) 5404319552844595 (by norm_num) (by norm_num) (by norm_num [abs_lt])]
    norm_num
  have h12 : fl ((10808639105689191 / 36028797018963968) : ℚ) = (1351079888211149 / 4503599627370496) := by
    rw [fl_eq_tie (10808639105689191 / 36028797018963968) (-2) 5404319552844595 (by norm_num) (by norm_num) (by norm_num)]
    norm_num
  have h123 : fl ((10808639105689191 / 18014398509481984) : ℚ) = (1351079888211149 / 2251799813685248) := by
    rw [fl_eq_tie (10808639105689191 / 18014398509481984) (-1) 5404319552844595 (by norm_num) (by norm_num) (by norm_num)]
    norm_num
  have h32 : fl ((1 / 2) : ℚ) = (1 / 2) := by
    rw [fl_eq (1 / 2) (-1) 4503599627370496 (by norm_num) (by norm_num) (by norm_num [abs_lt])]
    norm_num
  have h321 : fl ((21617278211378381 / 36028797018963968) : ℚ) = (5404319552844595 / 9007199254740992) := by
    rw [fl_eq (21617278211378381 / 36028797018963968) (-1) 5404319552844595 (by norm_num) (by norm_num) (by norm_num [abs_lt])]
    norm_num
  have r1 : revenue [paidBooking 1 (1 / 10), paidBooking 2 (2 / 10), paidBooking 3 (3 / 10)] =
      (1351079888211149 / 2251799813685248) := by
    simp only [revenue, paidBooking, List.filter, decide_True, List.foldl, amountOf, fadd,
      zero_add]
    rw [h1, h1r, h2]
    norm_num
    rw [h12, h3]
    norm_num
    rw [h123]
  have r2 : revenue [paidBooking 3 (3 / 10), paidBooking 2 (2 / 10), paidBooking 1 (1 / 10)] =
      (5404319552844595 / 9007199254740992) := by
    simp only [revenue, paidBooking, List.filter, decide_True, List.foldl, amountOf, fadd,
      zero_add]
    rw [h3, h3r, h2]
    norm_num
    rw [h32, h1]
    norm_num
    rw [h321]
  refine ⟨?_, r1, r2, ?_⟩
  · exact (List.reverse_perm _).symm
  · rw [r1, r2]
    norm_num

/-- When the exact percentage lies halfway between two tenths, the rounding
error of the computed percentage decides the direction: 23 occupied rooms of 80
(28.75 percent) print as 28.7, and 1 occupied room of 16 (6.25 percent) prints
as 6.3. -/
theorem occupancyRate_ties :
    occupancyRate (List.replicate 23 (roomWith 1 "OCCUPIED") ++
      List.replicate 57 (roomWith 2 "AVAILABLE")) = 287 / 10 ∧
    occupancyRate (List.replicate 1 (roomWith 1 "OCCUPIED") ++
      List.replicate 15 (roomWith 2 "AVAILABLE")) = 63 / 10 := by
  have h1 : fl ((23 / 80) : ℚ) = (2589569785738035 / 9007199254740992) := by
    rw [fl_eq (23 / 80) (-2) 5179139571476070 (by norm_num) (by norm_num) (by norm_num [abs_lt])]
    norm_num
  have h2 : fl ((64739244643450875 / 2251799813685248) : ℚ) = (8092405580431359 / 281474976710656) := by
    rw [fl_eq (64739244643450875 / 2251799813685248) (4) 8092405580431359 (by norm_num) (by norm_num) (by norm_num [abs_lt])]
    norm_num
  have g1 : fl ((1 / 16) : ℚ) = (1 / 16) := by
    rw [fl_eq (1 / 16) (-4) 4503599627370496 (by norm_num) (by norm_num) (by norm_num [abs_lt])]
    norm_num
  have g2 : fl ((25 / 4) : ℚ) = (25 / 4) := by
    rw [fl_eq (25 / 4) (2) 7036874417766400 (by norm_num) (by norm_num) (by norm_num [abs_lt])]
    norm_num
  have f1 : ⌊(10 : ℚ) * (8092405580431359 / 281474976710656) + 1 / 2⌋ = 287 := by
    rw [Int.floor_eq_iff]
    norm_num
  have f2 : ⌊(10 : ℚ) * (25 / 4) + 1 / 2⌋ = 63 := by
    rw [Int.floor_eq_iff]
    norm_num
  constructor
  · rw [occupancyRate_of_ne_nil _ (by simp)]
    have hc : ((List.replicate 23 (roomWith 1 "OCCUPIED") ++
        List.replicate 57 (roomWith 2 "AVAILABLE")).filter
          (fun r => r.status = "OCCUPIED")).length = 23 := by
      simp [List.filter_append, List.filter_replicate, roomWith]
    have hl : (List.replicate 23 (roomWith 1 "OCCUPIED") ++
        List.replicate 57 (roomWith 2 "AVAILABLE")).length = 80 := by simp
    rw [hc, hl]
    unfold fmul fdiv
    push_cast
    rw [h1]
    norm_num
    rw [h2, f1]
    norm_num
  · rw [occupancyRate_of_ne_nil _ (by simp)]
    have hc : ((List.replicate 1 (roomWith 1 "OCCUPIED") ++
        List.replicate 15 (roomWith 2 "AVAILABLE")).filter
          (fun r => r.status = "OCCUPIED")).length = 1 := by
      simp [List.filter_append, List.filter_replicate, roomWith]
    have hl : (List.replicate 1 (roomWith 1 "OCCUPIED") ++
        List.replicate 15 (roomWith 2 "AVAILABLE")).length = 16 := by simp
    rw [hc, hl]
    unfold fmul fdiv
    push_cast
    rw [g1]
    norm_num
    rw [g2, f2]
    norm_num

/-! ### Session lemmas -/

theorem apiRequest_ok {α : Type} (st : Session) (config : RequestConfig)
    (backend : RequestConfig → Except HttpError α) (response : α)
    (h : backend (requestInterceptor st.storage config) = Except.ok response) :
    apiRequest st config backend =
      (st, requestInterceptor st.storage config, Except.ok response) := by
  simp [apiRequest, h]

theorem apiRequest_error {α : Type} (st : Session) (config : RequestConfig)
    (backend : RequestConfig → Except HttpError α) (error : HttpError)
    (h : backend (requestInterceptor st.storage config) = Except.error error) :
    apiRequest st config backend =
      (responseErrorInterceptor st error, requestInterceptor st.storage config,
        Except.error error) := by
  simp [apiRequest, h]

theorem authServiceLogin_thrown (st : Session) (email password : String)
    (backend : RequestConfig → Except HttpError LoginResponse)
    (hb : btoa (email ++ ":" ++ password) = none) :
    authServiceLogin st email password backend = (st, none, Except.error Rejection.thrown) := by
  simp [authServiceLogin, hb]

theorem authServiceLogin_resolved (st : Session) (email password c : String)
    (backend : RequestConfig → Except HttpError LoginResponse) (response : LoginResponse)
    (hb : btoa (email ++ ":" ++ password) = some c)
    (h : backend (requestInterceptor st.storage (loginRequest email password c)) =
      Except.ok response) :
    authServiceLogin st email password backend =
      (st, some (requestInterceptor st.storage (loginRequest email password c)),
        Except.ok response) := by
  simp [authServiceLogin, hb, apiRequest_ok _ _ _ _ h]

theorem authServiceLogin_rejected (st : Session) (email password c : String)
    (backend : RequestConfig → Except HttpError LoginResponse) (error : HttpError)
    (hb : btoa (email ++ ":" ++ password) = some c)
    (h : backend (requestInterceptor st.storage (loginRequest email password c)) =
      Except.error error) :
    authServiceLogin st email password backend =
      (responseErrorInterceptor st error,
        some (requestInterceptor st.storage (loginRequest email password c)),
        Except.error (Rejection.http error)) := by
  simp [authServiceLogin, hb, apiRequest_error _ _ _ _ h]

/-- The three ways a call of `authService.login` ends. -/
theorem authServiceLogin_cases (st : Session) (email password : String)
    (backend : RequestConfig → Except HttpError LoginResponse) :
    (btoa (email ++ ":" ++ password) = none ∧
      authServiceLogin st email password backend = (st, none, Except.error Rejection.thrown)) ∨
    (∃ c response, btoa (email ++ ":" ++ password) = some c ∧
      backend (requestInterceptor st.storage (loginRequest email password c)) =
        Except.ok response ∧
      authServiceLogin st email password backend =
        (st, some (requestInterceptor st.storage (loginRequest email password c)),
          Except.ok response)) ∨
    (∃ c error, btoa (email ++ ":" ++ password) = some c ∧
      backend (requestInterceptor st.storage (loginRequest email password c)) =
        Except.error error ∧
      authServiceLogin st email password backend =
        (responseErrorInterceptor st error,
          some (requestInterceptor st.storage (loginRequest email password c)),
          Except.error (Rejection.http error))) := by
  cases hb : btoa (email ++ ":" ++ password) with
  | none => exact Or.inl ⟨rfl, authServiceLogin_thrown st email password backend hb⟩
  | some c =>
    cases hr : backend (requestInterceptor st.storage (loginRequest email password c)) with
    | ok response =>
      exact Or.inr (Or.inl ⟨c, response, rfl, hr,
        authServiceLogin_resolved st email password c backend response hb hr⟩)
    | error error =>
      exact Or.inr (Or.inr ⟨c, error, rfl, hr,
        authServiceLogin_rejected st email password c backend error hb hr⟩)

/-- C1: when the login call resolves with a response whose user has a role
other than ADMIN, whatever its `success` flag, `login` returns a failure with
an error message and leaves the storage and the in-memory user as they
were. -/
theorem login_rejects_non_admin (json : Json) (st : Session) (email password : String)
    (backend : RequestConfig → Except HttpError LoginResponse) (response : LoginResponse)
    (user : User)
    (h : (authServiceLogin st email password backend).2.2 = Except.ok response)
    (hu : response.user = some user) (hr : user.role ≠ "ADMIN") :
    (login json st email password backend).2.success = false ∧
    (login json st email password backend).2.error =
      some "Invalid credentials or insufficient permissions" ∧
    (login json st email password backend).1.storage = st.storage ∧
    (login json st email password backend).1.user = st.user := by
  rcases authServiceLogin_cases st email password backend with
    ⟨_, he⟩ | ⟨c, r, hb, _, he⟩ | ⟨c, e, hb, _, he⟩
  · rw [he] at h
    simp at h
  · rw [he] at h
    simp only [Except.ok.injEq] at h
    subst h
    unfold login
    rw [he]
    by_cases hs : r.success = true
    · simp [hs, hu, hr, loginRefused]
    · simp [hs, loginRefused]
  · rw [he] at h
    simp at h

/-- C1 (witness): valid credentials of a user with role USER. -/
theorem login_rejects_non_admin_witness :
    (login sampleJson freshSession "ada@example.com" "secret"
      (backendAnswering { success := true, user := some (userWithRole "USER") })).2.success
        = false ∧
    (login sampleJson freshSession "ada@example.com" "secret"
      (backendAnswering { success := true, user := some (userWithRole "USER") })).1.user
        = none :=
  have h := login_rejects_non_admin sampleJson freshSession "ada@example.com" "secret"
    (backendAnswering { success := true, user := some (userWithRole "USER") })
    { success := true, user := some (userWithRole "USER") } (userWithRole "USER")
    rfl rfl (by decide)
  ⟨h.1, h.2.2.2⟩

/-- C2: an error response with status 401 to a request made through the API
client removes the `auth` and `user` storage entries, sets the location to
`/login`, and the call rejects with the original error. -/
theorem apiRequest_unauthorized {α : Type} (st : Session) (config : RequestConfig)
    (backend : RequestConfig → Except HttpError α) (error : HttpError)
    (h : backend (requestInterceptor st.storage config) = Except.error error)
    (h401 : error.status = some 401) :
    (apiRequest st config backend).1.storage.getItem "auth" = none ∧
    (apiRequest st config backend).1.storage.getItem "user" = none ∧
    (apiRequest st config backend).1.href = "/login" ∧
    (apiRequest st config backend).2.2 = Except.error error := by
  rw [apiRequest_error st config backend error h]
  simp [responseErrorInterceptor, h401, Storage.getItem, Storage.removeItem]

/-- C2 (witness): a stored session and a request answered with 401. -/
theorem apiRequest_unauthorized_witness :
    (apiRequest
      { freshSession with
        storage := (freshSession.storage.setItem "auth" "Basic eDp5").setItem "user" "ada",
        href := "/hotels" }
      { method := "GET", url := "/api/hotels", data := [], params := [],
        contentType := "application/json", authorization := none }
      (backendRejecting 401)).1.href = "/login" :=
  (apiRequest_unauthorized _ _ (backendRejecting 401) { status := some 401 } rfl rfl).2.2.1

/-- C3: once the session is resolved exactly one of the two gates renders its
children and the other redirects, `ProtectedRoute` to `/login` when there is no
user and `PublicRoute` to `/dashboard` when there is one; while loading both
render the loading screen. -/
theorem route_gates_exclusive (user : Option User) (inside outside : Rendered) :
    (user ≠ none →
      ProtectedRoute user false inside = inside ∧
      PublicRoute user false outside = Rendered.navigate "/dashboard") ∧
    (user = none →
      ProtectedRoute user false inside = Rendered.navigate "/login" ∧
      PublicRoute user false outside = outside) ∧
    ProtectedRoute user true inside = Rendered.view View.loadingScreen ∧
    PublicRoute user true outside = Rendered.view View.loadingScreen := by
  cases user <;> simp [ProtectedRoute, PublicRoute]

/-- C4: when the login call resolves with `success` and a user of role ADMIN,
`login` stores `Basic ` followed by the base64 of `email:password` under
`auth`, the serialized user under `user`, sets the in-memory user and returns
success. -/
theorem login_admin_persists (json : Json) (st : Session) (email password : String)
    (backend : RequestConfig → Except HttpError LoginResponse) (response : LoginResponse)
    (user : User)
    (h : (authServiceLogin st email password backend).2.2 = Except.ok response)
    (hs : response.success = true) (hu : response.user = some user)
    (hr : user.role = "ADMIN") :
    (∃ credentials, btoa (email ++ ":" ++ password) = some credentials ∧
      (login json st email password backend).1.storage.getItem "auth" =
        some ("Basic " ++ credentials)) ∧
    (login json st email password backend).1.storage.getItem "user" =
      some (json.stringify user) ∧
    (login json st email password backend).1.user = some user ∧
    (login json st email password backend).2 = { success := true, error := none } := by
  rcases authServiceLogin_cases st email password backend with
    ⟨_, he⟩ | ⟨c, r, hb, _, he⟩ | ⟨c, e, hb, _, he⟩
  · rw [he] at h
    simp at h
  · rw [he] at h
    simp only [Except.ok.injEq] at h
    subst h
    unfold login
    rw [he]
    simp [hs, hu, hr, hb, Storage.getItem, Storage.setItem]
  · rw [he] at h
    simp at h

/-- C4 (witness): the credentials `ada@example.com` and `secret` of an
administrator. -/
theorem login_admin_persists_witness :
    (login sampleJson freshSession "ada@example.com" "secret"
      (backendAnswering { success := true, user := some (userWithRole "ADMIN") })).1.user
        = some (userWithRole "ADMIN") ∧
    (login sampleJson freshSession "ada@example.com" "secret"
      (backendAnswering { success := true, user := some (userWithRole "ADMIN") })).2
        = { success := true, error := none } :=
  (login_admin_persists sampleJson freshSession "ada@example.com" "secret"
    (backendAnswering { success := true, user := some (userWithRole "ADMIN") })
    { success := true, user := some (userWithRole "ADMIN") } (userWithRole "ADMIN")
    rfl rfl rfl rfl).2.2

/-- C5 (counterexample): with a session in storage, a login attempt answered
with HTTP 401 fails and the `auth` and `user` entries are gone afterwards. -/
theorem login_unauthorized_clears_storage :
    (login sampleJson
      { freshSession with
        storage := (freshSession.storage.setItem "auth" "Basic eDp5").setItem "user" "ada" }
      "ada@example.com" "wrong" (backendRejecting 401)).2.success = false ∧
    ((freshSession.storage.setItem "auth" "Basic eDp5").setItem "user" "ada").getItem "auth" =
      some "Basic eDp5" ∧
    (login sampleJson
      { freshSession with
        storage := (freshSession.storage.setItem "auth" "Basic eDp5").setItem "user" "ada" }
      "ada@example.com" "wrong" (backendRejecting 401)).1.storage.getItem "auth" = none ∧
    (login sampleJson
      { freshSession with
        storage := (freshSession.storage.setItem "auth" "Basic eDp5").setItem "user" "ada" }
      "ada@example.com" "wrong" (backendRejecting 401)).1.storage.getItem "user" = none := by
  refine ⟨rfl, rfl, rfl, rfl⟩

/-- C5 (amended): a failed login leaves the in-memory user as it was; it leaves
the storage as it was unless the login request is answered with status 401, and
then the response interceptor removes the `auth` and `user` entries. -/
theorem login_failure_frame (json : Json) (st : Session) (email password : String)
    (backend : RequestConfig → Except HttpError LoginResponse)
    (hf : (login json st email password backend).2.success = false) :
    (login json st email password backend).1.user = st.user ∧
    ((∀ error, (authServiceLogin st email password backend).2.2 =
        Except.error (Rejection.http error) → error.status ≠ some 401) →
      (login json st email password backend).1.storage = st.storage) ∧
    (∀ error, (authServiceLogin st email password backend).2.2 =
        Except.error (Rejection.http error) → error.status = some 401 →
      (login json st email password backend).1.storage =
        (st.storage.removeItem "auth").removeItem "user") := by
  rcases authServiceLogin_cases st email password backend with
    ⟨_, he⟩ | ⟨c, r, hb, _, he⟩ | ⟨c, e, hb, _, he⟩
  · unfold login
    rw [he]
    simp
  · unfold login at hf ⊢
    rw [he] at hf ⊢
    by_cases hs : r.success = true
    · cases hu : r.user with
      | none => simp [hs, hu]
      | some u =>
        by_cases hr : u.role = "ADMIN"
        · simp [hs, hu, hr, hb] at hf
        · simp [hs, hu, hr]
    · simp [hs]
  · unfold login
    rw [he]
    simp only [Except.error.injEq, Rejection.http.injEq]
    refine ⟨?_, ?_, ?_⟩
    · unfold responseErrorInterceptor
      split_ifs <;> rfl
    · intro h
      have := h e rfl
      simp [responseErrorInterceptor, this]
    · intro e2 h2 h401
      subst h2
      simp [responseErrorInterceptor, h401]

/-- C5 (witness): a login attempt refused by the backend with status 403. -/
theorem login_failure_frame_witness :
    (login sampleJson freshSession "ada@example.com" "wrong" (backendRejecting 403)).1.user =
      freshSession.user :=
  (login_failure_frame sampleJson freshSession "ada@example.com" "wrong"
    (backendRejecting 403) rfl).1

/-- C6: `logout` removes the `auth` and `user` storage entries and sets the
in-memory user to null, whatever the prior state; every other part of the
state is kept, and logging out again changes nothing. -/
theorem logout_clears (st : Session) :
    (logout st).storage.getItem "auth" = none ∧
    (logout st).storage.getItem "user" = none ∧
    (logout st).user = none ∧
    (∀ key, key ≠ "auth" → key ≠ "user" → (logout st).storage.getItem key = st.storage.getItem key) ∧
    (logout st).href = st.href ∧ (logout st).loading = st.loading ∧
    logout (logout st) = logout st := by
  refine ⟨by simp [logout, authServiceLogout, Storage.getItem, Storage.removeItem],
    by simp [logout, authServiceLogout, Storage.getItem, Storage.removeItem], rfl, ?_, rfl, rfl, ?_⟩
  · intro key h1 h2
    simp [logout, authServiceLogout, Storage.getItem, Storage.removeItem, h1, h2]
  · simp only [logout, authServiceLogout, Storage.removeItem]
    congr 1
    funext k
    by_cases h1 : k = "user" <;> by_cases h2 : k = "auth" <;>
      simp [Storage.removeItem, h1, h2]

/-- C7: session restoration sets the in-memory user to the value parsed from
the `user` entry when the `user` and `auth` entries are both present and
non-empty, and leaves it null when either is missing or empty; a restoration
that completes from a null user ends with a user exactly when both entries are
present and non-empty and the value parsed is a user record, not `null`. -/
theorem restore_populates (json : Json) (st : Session) :
    (∀ storedUser storedAuth parsed,
      st.storage.getItem "user" = some storedUser → storedUser ≠ "" →
      st.storage.getItem "auth" = some storedAuth → storedAuth ≠ "" →
      json.parse storedUser = some parsed →
      restore json st = some { st with user := parsed, loading := false }) ∧
    (truthy (st.storage.getItem "user") = false ∨ truthy (st.storage.getItem "auth") = false →
      restore json st = some { st with loading := false }) ∧
    (∀ st1, st.user = none → restore json st = some st1 →
      (st1.user ≠ none ↔
        truthy (st.storage.getItem "user") = true ∧
        truthy (st.storage.getItem "auth") = true ∧
        ∃ u, json.parse ((st.storage.getItem "user").getD "") = some (some u))) := by
  refine ⟨?_, ?_, ?_⟩
  · intro storedUser storedAuth parsed h1 h2 h3 h4 h5
    simp [restore, h1, h2, h3, h4, h5, truthy]
  · intro h
    rcases h with h | h <;> simp [restore, h]
  · intro st1 hnone h
    unfold restore at h
    by_cases hb : (truthy (st.storage.getItem "user") && truthy (st.storage.getItem "auth")) = true
    · simp only [hb, if_true] at h
      have hb2 := hb
      simp only [Bool.and_eq_true] at hb2
      cases hp : json.parse ((st.storage.getItem "user").getD "") with
      | none => simp [hp] at h
      | some parsed =>
        simp only [hp, Option.some.injEq] at h
        subst h
        cases parsed with
        | none => simp
        | some u => simp [hb2.1, hb2.2]
    · simp only [hb] at h
      simp only [Bool.false_eq_true, if_false, Option.some.injEq] at h
      subst h
      simp only [Bool.and_eq_true] at hb
      constructor
      · intro hne
        exact absurd hnone hne
      · intro hall
        exact absurd ⟨hall.1, hall.2.1⟩ hb

/-- C7 (witness): with the `user` entry `null` and an `auth` entry, restoration
completes and the in-memory user is `null`, as parsed. -/
theorem restore_populates_witness :
    restore sampleJson
      (pageReload
        { freshSession with
          storage := (freshSession.storage.setItem "auth" "Basic eDp5").setItem "user"
            "null" }) =
      some { pageReload
        { freshSession with
          storage := (freshSession.storage.setItem "auth" "Basic eDp5").setItem "user"
            "null" } with user := none, loading := false } :=
  (restore_populates sampleJson
    (pageReload
      { freshSession with
        storage := (freshSession.storage.setItem "auth" "Basic eDp5").setItem "user"
          "null" })).1 "null" "Basic eDp5" none rfl (by decide) rfl (by decide) rfl

/-- C8: the request interceptor sets the `Authorization` header to the stored
`auth` value when that entry is present and non-empty and returns the
configuration unchanged otherwise; no other field of the configuration
changes. -/
theorem requestInterceptor_frame (storage : Storage) (config : RequestConfig) :
    (∀ auth, storage.getItem "auth" = some auth → auth ≠ "" →
      (requestInterceptor storage config).authorization = some auth) ∧
    (storage.getItem "auth" = none ∨ storage.getItem "auth" = some "" →
      requestInterceptor storage config = config) ∧
    (requestInterceptor storage config).method = config.method ∧
    (requestInterceptor storage config).url = config.url ∧
    (requestInterceptor storage config).data = config.data ∧
    (requestInterceptor storage config).params = config.params ∧
    (requestInterceptor storage config).contentType = config.contentType := by
  refine ⟨?_, ?_, ?_⟩
  · intro auth h1 h2
    simp [requestInterceptor, h1, h2, truthy]
  · intro h
    rcases h with h | h <;> simp [requestInterceptor, h, truthy]
  · unfold requestInterceptor
    simp only
    split_ifs <;> simp

/-- C9 (the code at the failing input): with a stale `auth` entry in storage,
the login request for `ada@example.com` and `secret` is sent with the stored
value in its `Authorization` header, not with the Basic header of the
credentials in its body. -/
theorem login_request_sends_stored_token :
    (authServiceLogin
      { freshSession with storage := freshSession.storage.setItem "auth" "Basic b2xkOm9sZA==" }
      "ada@example.com" "secret"
      (backendRejecting 401)).2.1.map (fun sent => (sent.data, sent.authorization)) =
      some ([("email", "ada@example.com"), ("password", "secret")],
        some "Basic b2xkOm9sZA==") ∧
    btoa ("ada@example.com" ++ ":" ++ "secret") = some "YWRhQGV4YW1wbGUuY29tOnNlY3JldA==" := by
  constructor <;> rfl

/-- Without a stored `auth` value the login request carries the Basic header
built from the credentials in its body. -/
theorem login_request_header_fresh (st : Session) (email password : String)
    (backend : RequestConfig → Except HttpError LoginResponse) (sent : RequestConfig)
    (hs : truthy (st.storage.getItem "auth") = false)
    (h : (authServiceLogin st email password backend).2.1 = some sent) :
    ∃ credentials, btoa (email ++ ":" ++ password) = some credentials ∧
      sent.authorization = some ("Basic " ++ credentials) ∧
      sent.data = [("email", email), ("password", password)] := by
  rcases authServiceLogin_cases st email password backend with
    ⟨_, he⟩ | ⟨c, r, hb, _, he⟩ | ⟨c, e, hb, _, he⟩
  · rw [he] at h
    simp at h
  · rw [he] at h
    simp only [Option.some.injEq] at h
    subst h
    exact ⟨c, hb, by simp [requestInterceptor, hs, loginRequest],
      by simp [requestInterceptor, hs, loginRequest]⟩
  · rw [he] at h
    simp only [Option.some.injEq] at h
    subst h
    exact ⟨c, hb, by simp [requestInterceptor, hs, loginRequest],
      by simp [requestInterceptor, hs, loginRequest]⟩

/-- Resolution of a path from the route it matches. -/
theorem resolve_eq (user : Option User) (fuel : Nat) (path : String) :
    resolve user false (fuel + 1) path =
      match renderRoute user false (matchRoute path) with
      | Rendered.view v => some (v, 0)
      | Rendered.navigate target =>
        (resolve user false fuel target).map (fun r => (r.1, r.2 + 1)) := by
  rw [resolve]

/-- C10: for every requested path and resolved session state, following the
redirects of the route table reaches a view after at most two redirects: the
Login screen when there is no user, and one of the protected views when there
is a user. -/
theorem resolve_terminates (user : Option User) (path : String) :
    ∃ v n, resolve user false 2 path = some (v, n) ∧ n ≤ 2 ∧
      (user = none → v = View.login) ∧
      (user ≠ none → v = View.dashboard ∨ v = View.hotels ∨ v = View.rooms ∨
        v = View.bookings) := by
  have hlogin : matchRoute "/login" = Route.login := by decide
  have hdash : matchRoute "/dashboard" = Route.dashboard := by decide
  cases user with
  | none =>
    have h1 : resolve none false 1 "/login" = some (View.login, 0) := by
      rw [resolve_eq, hlogin]
      rfl
    have h2 : resolve none false 1 "/dashboard" = some (View.login, 1) := by
      rw [resolve_eq, hdash]
      simp only [renderRoute, ProtectedRoute]
      simp [resolve, hlogin, renderRoute, PublicRoute]
    rw [resolve_eq]
    cases matchRoute path <;>
      simp [renderRoute, ProtectedRoute, PublicRoute, h1, h2] <;>
      exact ⟨_, _, ⟨rfl, rfl⟩, by decide⟩
  | some u =>
    have h2 : resolve (some u) false 1 "/dashboard" = some (View.dashboard, 0) := by
      rw [resolve_eq, hdash]
      rfl
    rw [resolve_eq]
    cases matchRoute path <;>
      simp [renderRoute, ProtectedRoute, PublicRoute, h2] <;>
      exact ⟨_, _, ⟨rfl, rfl⟩, by decide⟩

/-! ### View lemmas and claims -/

/-- C21 (counterexample): the same booking collection and the same filter
values (`past`, no status or hotel filter) give an empty filtered list when the
clock reads 2024-05-10T10:00Z and a list of one booking when it reads
2024-05-13T10:00Z. -/
theorem filteredBookings_depends_on_clock :
    filteredBookings 0 1715335200000 "" "" "past" [bookingAt 42 1715472000000] = [] ∧
    filteredBookings 0 1715594400000 "" "" "past" [bookingAt 42 1715472000000] =
      [bookingAt 42 1715472000000] := by
  decide

/-- C21 (amended): the filtered collections of the Hotels and Rooms views are
determined by the collection and the filter values, and so is that of the
Bookings view when no date range is selected, whatever the clock and the zone;
each is a sublist of the collection, in the collection's order. -/
theorem filtered_collections_stable :
    (∀ (tz₁ today₁ tz₂ today₂ : Int) (filterStatus filterHotel : String)
        (fetched bookings : List Booking), fetched = bookings →
      filteredBookings tz₁ today₁ filterStatus filterHotel "" fetched =
        filteredBookings tz₂ today₂ filterStatus filterHotel "" bookings) ∧
    (∀ (toLowerCase : String → String) (searchTerm filterCity : String)
        (fetched hotels : List Hotel), fetched = hotels →
      filteredHotels toLowerCase searchTerm filterCity fetched =
        filteredHotels toLowerCase searchTerm filterCity hotels) ∧
    (∀ (filterHotel filterStatus filterRoomType : String) (fetched rooms : List Room),
      fetched = rooms →
      filteredRooms filterHotel filterStatus filterRoomType fetched =
        filteredRooms filterHotel filterStatus filterRoomType rooms) ∧
    (∀ (tz today : Int) (filterStatus filterHotel filterDateRange : String)
        (bookings : List Booking),
      (filteredBookings tz today filterStatus filterHotel filterDateRange bookings).Sublist
        bookings) ∧
    (∀ (toLowerCase : String → String) (searchTerm filterCity : String) (hotels : List Hotel),
      (filteredHotels toLowerCase searchTerm filterCity hotels).Sublist hotels) ∧
    (∀ (filterHotel filterStatus filterRoomType : String) (rooms : List Room),
      (filteredRooms filterHotel filterStatus filterRoomType rooms).Sublist rooms) := by
  refine ⟨?_, ?_, ?_, ?_, ?_, ?_⟩
  · intro tz₁ today₁ tz₂ today₂ filterStatus filterHotel fetched bookings h
    subst h
    simp [filteredBookings, matchesDateRange]
  · intro toLowerCase searchTerm filterCity fetched hotels h
    rw [h]
  · intro filterHotel filterStatus filterRoomType fetched rooms h
    rw [h]
  · intro tz today filterStatus filterHotel filterDateRange bookings
    exact List.filter_sublist _
  · intro toLowerCase searchTerm filterCity hotels
    exact List.filter_sublist _
  · intro filterHotel filterStatus filterRoomType rooms
    exact List.filter_sublist _

/-- The effects of `handleStatusUpdate` for a logged-in user. -/
theorem handleStatusUpdate_eq (u : User) (bookingId : Nat) (newStatus : String)
    (update : Outcome Unit) (bookingsFetch : Outcome (List Booking))
    (hotelsFetch : Outcome (List Hotel)) :
    handleStatusUpdate (some u) bookingId newStatus update bookingsFetch hotelsFetch =
      [BookingsEffect.setUpdatingBooking (some bookingId),
        BookingsEffect.requestStatus "PUT" ("/api/bookings/" ++ toString bookingId ++ "/status")
          newStatus u.id ("Status updated by admin to " ++ newStatus)] ++
        (match update with
         | Outcome.resolved _ =>
            BookingsEffect.setMessage "success" "Booking status updated successfully!" ::
              bookingsLoadData bookingsFetch hotelsFetch
         | Outcome.rejected =>
            [BookingsEffect.consoleError "Error updating booking status:",
             BookingsEffect.setMessage "error"
               "Error updating booking status. Please try again."]) ++
        [BookingsEffect.setUpdatingBooking none] := by
  cases update <;> simp [handleStatusUpdate, bookingServiceUpdateStatus]

/-- C22: for a logged-in user, `handleStatusUpdate` issues exactly one call on
a status path: `PUT /api/bookings/{id}/status` with the new status, the user's
id as `changedBy` and the reason `Status updated by admin to ` followed by the
new status. -/
theorem handleStatusUpdate_request (u : User) (bookingId : Nat) (newStatus : String)
    (update : Outcome Unit) (bookingsFetch : Outcome (List Booking))
    (hotelsFetch : Outcome (List Hotel)) :
    ∃ rest,
      handleStatusUpdate (some u) bookingId newStatus update bookingsFetch hotelsFetch =
        BookingsEffect.setUpdatingBooking (some bookingId) ::
          BookingsEffect.requestStatus "PUT"
            ("/api/bookings/" ++ toString bookingId ++ "/status") newStatus u.id
            ("Status updated by admin to " ++ newStatus) :: rest ∧
      ∀ method url status changedBy reason,
        BookingsEffect.requestStatus method url status changedBy reason ∉ rest := by
  rw [handleStatusUpdate_eq]
  refine ⟨_, rfl, ?_⟩
  intro method url status changedBy reason
  cases update <;> cases bookingsFetch <;> cases hotelsFetch <;>
    simp [bookingsLoadData]

/-- C23 (counterexample): when the gateway call fails, none of the four
mutation handlers issues a fetch: the trace holds the error banner and no GET
request. -/
theorem mutation_failure_no_reload :
    Effect.request "GET" "/api/hotels" ∉
      handleDelete 7 "Lakeside Inn" (fun _ => true) Outcome.rejected (Outcome.resolved []) ∧
    Effect.request "GET" "/api/hotels" ∉
      handleSubmit none
        { name := "Lakeside Inn", description := "", address := "1 Shore Road", city := "Galle",
          state := "", country := "", postalCode := "", phone := "", email := "", rating := 4 }
        Outcome.rejected (Outcome.resolved []) ∧
    RoomsEffect.request "GET" "/api/rooms" ∉
      updateRoomStatus [roomWith 3 "AVAILABLE"] 3 "OCCUPIED" Outcome.rejected
        (Outcome.resolved []) (Outcome.resolved []) (Outcome.resolved []) ∧
    BookingsEffect.request "GET" "/api/bookings" ∉
      handleStatusUpdate (some (userWithRole "ADMIN")) 42 "CONFIRMED" Outcome.rejected
        (Outcome.resolved []) (Outcome.resolved []) := by
  decide

/-- C23 (amended): in each mutation handler the gateway call is followed, when
it succeeds, by the success banner and then the full reload of the view's
data, and, when it fails, by the error banner alone: no request follows it. -/
theorem mutation_then_reload :
    (∀ (id : Nat) (name : String) (answer : String → Bool) (fetch : Outcome (List Hotel)),
      answer (deleteConfirmText name) = true →
      handleDelete id name answer (Outcome.resolved ()) fetch =
        [Effect.confirm (deleteConfirmText name), hotelServiceDelete id,
          Effect.setMessage "success" "Hotel deleted successfully!"] ++ loadHotels fetch ∧
      handleDelete id name answer Outcome.rejected fetch =
        [Effect.confirm (deleteConfirmText name), hotelServiceDelete id,
          Effect.consoleError "Error deleting hotel:",
          Effect.setMessage "error" "Error deleting hotel. Please try again."]) ∧
    (∀ (editingHotel : Option Hotel) (formData : HotelForm) (fetch : Outcome (List Hotel)),
      (∃ call message,
        handleSubmit editingHotel formData (Outcome.resolved ()) fetch =
          [Effect.preventDefault, Effect.setFormLoading true, call,
            Effect.setMessage "success" message] ++ loadHotels fetch ++
          [Effect.setShowModal false, Effect.resetForm, Effect.setFormLoading false]) ∧
      (∃ call,
        handleSubmit editingHotel formData Outcome.rejected fetch =
          [Effect.preventDefault, Effect.setFormLoading true, call,
            Effect.consoleError "Error saving hotel:",
            Effect.setMessage "error" "Error saving hotel. Please try again.",
            Effect.setFormLoading false])) ∧
    (∀ (rooms : List Room) (roomId : Nat) (newStatus : String)
        (roomsFetch : Outcome (List Room)) (hotelsFetch : Outcome (List Hotel))
        (roomTypesFetch : Outcome (List RoomType)),
      (∃ call,
        updateRoomStatus rooms roomId newStatus (Outcome.resolved ()) roomsFetch hotelsFetch
            roomTypesFetch =
          [RoomsEffect.setUpdatingRoom (some roomId), call,
            RoomsEffect.setMessage "success" "Room status updated successfully!"] ++
          roomsLoadData roomsFetch hotelsFetch roomTypesFetch ++
          [RoomsEffect.setUpdatingRoom none]) ∧
      (∃ call,
        updateRoomStatus rooms roomId newStatus Outcome.rejected roomsFetch hotelsFetch
            roomTypesFetch =
          [RoomsEffect.setUpdatingRoom (some roomId), call,
            RoomsEffect.consoleError "Error updating room status:",
            RoomsEffect.setMessage "error" "Error updating room status. Please try again.",
            RoomsEffect.setUpdatingRoom none])) ∧
    (∀ (u : User) (bookingId : Nat) (newStatus : String)
        (bookingsFetch : Outcome (List Booking)) (hotelsFetch : Outcome (List Hotel)),
      (∃ call,
        handleStatusUpdate (some u) bookingId newStatus (Outcome.resolved ()) bookingsFetch
            hotelsFetch =
          [BookingsEffect.setUpdatingBooking (some bookingId), call,
            BookingsEffect.setMessage "success" "Booking status updated successfully!"] ++
          bookingsLoadData bookingsFetch hotelsFetch ++
          [BookingsEffect.setUpdatingBooking none]) ∧
      (∃ call,
        handleStatusUpdate (some u) bookingId newStatus Outcome.rejected bookingsFetch
            hotelsFetch =
          [BookingsEffect.setUpdatingBooking (some bookingId), call,
            BookingsEffect.consoleError "Error updating booking status:",
            BookingsEffect.setMessage "error" "Error updating booking status. Please try again.",
            BookingsEffect.setUpdatingBooking none])) := by
  refine ⟨?_, ?_, ?_, ?_⟩
  · intro id name answer fetch h
    simp [handleDelete, h]
  · intro editingHotel formData fetch
    cases editingHotel <;> simp [handleSubmit]
  · intro rooms roomId newStatus roomsFetch hotelsFetch roomTypesFetch
    simp [updateRoomStatus]
  · intro u bookingId newStatus bookingsFetch hotelsFetch
    simp [handleStatusUpdate]

/-- C24: loading the data of the Rooms and of the Bookings view is atomic: when
one of the concurrent fetches fails every collection keeps its previous value,
the error banner is set and the loading flag ends false; when all succeed every
collection is replaced by its fetched value and the loading flag ends false. -/
theorem loadData_atomic :
    (∀ (st : RoomsState) (rooms : Outcome (List Room)) (hotels : Outcome (List Hotel))
        (roomTypes : Outcome (List RoomType)),
      (rooms = Outcome.rejected ∨ hotels = Outcome.rejected ∨ roomTypes = Outcome.rejected →
        (st.run (roomsLoadData rooms hotels roomTypes)).rooms = st.rooms ∧
        (st.run (roomsLoadData rooms hotels roomTypes)).hotels = st.hotels ∧
        (st.run (roomsLoadData rooms hotels roomTypes)).roomTypes = st.roomTypes ∧
        (st.run (roomsLoadData rooms hotels roomTypes)).message =
          { type := "error", text := "Error loading room data. Please try again." } ∧
        (st.run (roomsLoadData rooms hotels roomTypes)).loading = false) ∧
      (∀ roomsData hotelsData roomTypesData,
        rooms = Outcome.resolved roomsData → hotels = Outcome.resolved hotelsData →
        roomTypes = Outcome.resolved roomTypesData →
        (st.run (roomsLoadData rooms hotels roomTypes)).rooms = roomsData ∧
        (st.run (roomsLoadData rooms hotels roomTypes)).hotels = hotelsData ∧
        (st.run (roomsLoadData rooms hotels roomTypes)).roomTypes = roomTypesData ∧
        (st.run (roomsLoadData rooms hotels roomTypes)).message = st.message ∧
        (st.run (roomsLoadData rooms hotels roomTypes)).loading = false)) ∧
    (∀ (st : BookingsState) (bookings : Outcome (List Booking))
        (hotels : Outcome (List Hotel)),
      (bookings = Outcome.rejected ∨ hotels = Outcome.rejected →
        (st.run (bookingsLoadData bookings hotels)).bookings = st.bookings ∧
        (st.run (bookingsLoadData bookings hotels)).hotels = st.hotels ∧
        (st.run (bookingsLoadData bookings hotels)).message =
          { type := "error", text := "Error loading booking data. Please try again." } ∧
        (st.run (bookingsLoadData bookings hotels)).loading = false) ∧
      (∀ bookingsData hotelsData,
        bookings = Outcome.resolved bookingsData → hotels = Outcome.resolved hotelsData →
        (st.run (bookingsLoadData bookings hotels)).bookings = bookingsData ∧
        (st.run (bookingsLoadData bookings hotels)).hotels = hotelsData ∧
        (st.run (bookingsLoadData bookings hotels)).message = st.message ∧
        (st.run (bookingsLoadData bookings hotels)).loading = false)) := by
  constructor
  · intro st rooms hotels roomTypes
    constructor
    · intro h
      cases rooms <;> cases hotels <;> cases roomTypes <;>
        simp_all [roomsLoadData, RoomsState.run, RoomsState.apply]
    · intro roomsData hotelsData roomTypesData h1 h2 h3
      subst h1 h2 h3
      simp [roomsLoadData, RoomsState.run, RoomsState.apply]
  · intro st bookings hotels
    constructor
    · intro h
      cases bookings <;> cases hotels <;>
        simp_all [bookingsLoadData, BookingsState.run, BookingsState.apply]
    · intro bookingsData hotelsData h1 h2
      subst h1 h2
      simp [bookingsLoadData, BookingsState.run, BookingsState.apply]

/-- A run of `loadDashboardData` never empties the error state. -/
theorem loadDashboardData_keeps_error (st : DashboardState) (hotelsFetch : Outcome (List Hotel))
    (roomsFetch : Outcome (List Room)) (bookingsFetch : Outcome (List Booking))
    (h : st.error ≠ "") :
    (loadDashboardData st hotelsFetch roomsFetch bookingsFetch).error ≠ "" := by
  cases hotelsFetch <;> cases roomsFetch <;> cases bookingsFetch <;>
    simp [loadDashboardData, h]

/-- C25 (the code at the failing input): after a run in which the fetch of the
hotels fails, a retry in which all three fetches succeed leaves the error state
set and the error screen rendered. -/
theorem dashboard_retry_keeps_error_screen :
    (loadDashboardData
      (loadDashboardData DashboardState.initial Outcome.rejected (Outcome.resolved [])
        (Outcome.resolved []))
      (Outcome.resolved []) (Outcome.resolved []) (Outcome.resolved [])).error =
      "Failed to load dashboard data" ∧
    dashboardRender
      (loadDashboardData
        (loadDashboardData DashboardState.initial Outcome.rejected (Outcome.resolved [])
          (Outcome.resolved []))
        (Outcome.resolved []) (Outcome.resolved []) (Outcome.resolved [])) =
      DashboardScreen.error "Failed to load dashboard data" := by
  constructor <;> rfl

/-- C26: `login` always resolves to a result: a success without error, or a
failure that carries a non-empty error message. -/
theorem login_total (json : Json) (st : Session) (email password : String)
    (backend : RequestConfig → Except HttpError LoginResponse) :
    ((login json st email password backend).2.success = true ∧
      (login json st email password backend).2.error = none) ∨
    ((login json st email password backend).2.success = false ∧
      ∃ message, (login json st email password backend).2.error = some message ∧
        message ≠ "") := by
  have h1 : loginRefused.success = false ∧
      ∃ message, loginRefused.error = some message ∧ message ≠ "" :=
    ⟨rfl, _, rfl, by decide⟩
  have h2 : loginFailed.success = false ∧
      ∃ message, loginFailed.error = some message ∧ message ≠ "" :=
    ⟨rfl, _, rfl, by decide⟩
  unfold login
  rcases authServiceLogin_cases st email password backend with
    ⟨_, he⟩ | ⟨c, r, hb, _, he⟩ | ⟨c, e, hb, _, he⟩
  · rw [he]
    exact Or.inr h2
  · rw [he]
    by_cases hs : r.success = true
    · cases hu : r.user with
      | none =>
        simp only [hs, hu, if_true]
        exact Or.inr h2
      | some u =>
        by_cases hr : u.role = "ADMIN"
        · simp [hs, hu, hr, hb]
        · simp only [hs, hu, hr, if_true, if_false]
          exact Or.inr h1
    · simp only [hs]
      exact Or.inr h1
  · rw [he]
    exact Or.inr h2

/-- Restoration ends with an exception when both entries are present and
non-empty and the `user` entry does not parse. -/
theorem restore_throws (json : Json) (st : Session)
    (hu : truthy (st.storage.getItem "user") = true)
    (ha : truthy (st.storage.getItem "auth") = true)
    (hp : json.parse ((st.storage.getItem "user").getD "") = none) :
    restore json st = none := by
  simp [restore, hu, ha, hp]

/-- C27 (the code at the failing input): with the `user` entry `{not json` and
an `auth` entry, the restore effect ends with the exception of `JSON.parse`; the
loading flag is never set to false and both gates keep the loading screen. -/
theorem restore_invalid_json :
    restore strictJson
      (pageReload
        { freshSession with
          storage := (freshSession.storage.setItem "auth" "Basic eDp5").setItem "user"
            "\x7bnot json" }) = none ∧
    (pageReload
        { freshSession with
          storage := (freshSession.storage.setItem "auth" "Basic eDp5").setItem "user"
            "\x7bnot json" }).loading = true ∧
    ProtectedRoute none true (Rendered.view View.dashboard) = Rendered.view View.loadingScreen ∧
    PublicRoute none true (Rendered.view View.login) = Rendered.view View.loadingScreen := by
  refine ⟨rfl, rfl, rfl, rfl⟩

theorem basic_ne_empty (credentials : String) : "Basic " ++ credentials ≠ "" := by
  intro h
  have := congrArg String.length h
  simp only [String.length_append] at this
  have h6 : "Basic ".length = 6 := by decide
  have h0 : "".length = 0 := by decide
  omega

/-- What `login` does when the call resolves with `success` and a user of role
ADMIN. -/
theorem login_admin_eq (json : Json) (st : Session) (email password : String)
    (backend : RequestConfig → Except HttpError LoginResponse) (response : LoginResponse)
    (u : User)
    (h : (authServiceLogin st email password backend).2.2 = Except.ok response)
    (hs : response.success = true) (hu : response.user = some u) (hr : u.role = "ADMIN") :
    ∃ c, btoa (email ++ ":" ++ password) = some c ∧
      login json st email password backend =
        ({ st with
            storage := (st.storage.setItem "auth" ("Basic " ++ c)).setItem "user"
              (json.stringify u),
            user := some u },
         { success := true, error := none }) := by
  rcases authServiceLogin_cases st email password backend with
    ⟨_, he⟩ | ⟨c, r, hb, _, he⟩ | ⟨c, e, hb, _, he⟩
  · rw [he] at h
    simp at h
  · rw [he] at h
    simp only [Except.ok.injEq] at h
    subst h
    refine ⟨c, hb, ?_⟩
    unfold login
    rw [he]
    simp [hs, hu, hr, hb]
  · rw [he] at h
    simp at h

/-- C28: after a successful administrator login that returned the user `u`, a
page reload followed by session restoration yields a session whose in-memory
user is `u` (for a user record that `JSON.parse` reads back from its
serialisation). -/
theorem login_restore_roundtrip (json : Json) (st : Session) (email password : String)
    (backend : RequestConfig → Except HttpError LoginResponse) (response : LoginResponse)
    (u : User)
    (h : (authServiceLogin st email password backend).2.2 = Except.ok response)
    (hs : response.success = true) (hu : response.user = some u) (hr : u.role = "ADMIN")
    (hne : json.stringify u ≠ "") (hparse : json.parse (json.stringify u) = some (some u)) :
    ∃ st1, restore json (pageReload (login json st email password backend).1) = some st1 ∧
      st1.user = some u ∧ st1.loading = false ∧
      st1.storage = (login json st email password backend).1.storage := by
  obtain ⟨c, _, heq⟩ := login_admin_eq json st email password backend response u h hs hu hr
  refine ⟨{ pageReload (login json st email password backend).1 with
    user := some u, loading := false }, ?_, rfl, rfl, rfl⟩
  rw [heq]
  simp [restore, pageReload, Storage.getItem, Storage.setItem, truthy, hne, basic_ne_empty,
    hparse]

/-- C28 (witness): the administrator `ada@example.com`. -/
theorem login_restore_roundtrip_witness :
    ∃ st1, restore sampleJson (pageReload (login sampleJson freshSession "ada@example.com"
        "secret"
        (backendAnswering { success := true, user := some (userWithRole "ADMIN") })).1) =
        some st1 ∧ st1.user = some (userWithRole "ADMIN") :=
  have h := login_restore_roundtrip sampleJson freshSession "ada@example.com" "secret"
    (backendAnswering { success := true, user := some (userWithRole "ADMIN") })
    { success := true, user := some (userWithRole "ADMIN") } (userWithRole "ADMIN")
    rfl rfl rfl rfl (by decide) rfl
  h.elim fun st1 h1 => ⟨st1, h1.1, h1.2.1⟩

/-- C29: every check-in the `week` test accepts is accepted by the `month`
test: seven days after the clock reading is before local midnight of the same
day number in the next month. -/
theorem week_subset_month (tz today checkIn : Int)
    (h : matchesDateRange tz "week" today checkIn = true) :
    matchesDateRange tz "month" today checkIn = true := by
  have hw := (matchesDateRange_week tz today checkIn).mp h
  have hb := nextMonth_bounds tz today
  have hd := day_bounds (localTime tz today)
  rw [matchesDateRange_month]
  unfold localTime msPerDay at *
  exact ⟨hw.1, by omega⟩

/-- C29 (witness): a check-in two days after a clock reading of
2024-05-10T10:00Z. -/
theorem week_subset_month_witness :
    matchesDateRange 0 "week" 1715335200000 1715472000000 = true ∧
    matchesDateRange 0 "month" 1715335200000 1715472000000 = true :=
  ⟨by decide, week_subset_month 0 1715335200000 1715472000000 (by decide)⟩

/-- C30: for a room id present in the collection, `updateRoomStatus` sends to
`roomService.update`, on `PUT /api/rooms/{id}`, the first stored room with that
id with its status replaced by the new status and every other field
unchanged. -/
theorem updateRoomStatus_payload (rooms : List Room) (roomId : Nat) (newStatus : String)
    (update : Outcome Unit) (roomsFetch : Outcome (List Room))
    (hotelsFetch : Outcome (List Hotel)) (roomTypesFetch : Outcome (List RoomType))
    (h : ∃ r ∈ rooms, r.id = roomId) :
    ∃ room sent rest, rooms.find? (fun r => r.id == roomId) = some room ∧ room ∈ rooms ∧
      room.id = roomId ∧
      updateRoomStatus rooms roomId newStatus update roomsFetch hotelsFetch roomTypesFetch =
        RoomsEffect.setUpdatingRoom (some roomId) ::
          RoomsEffect.requestWithData "PUT" ("/api/rooms/" ++ toString roomId)
            (RoomPayload.record sent) :: rest ∧
      sent.status = newStatus ∧ sent.id = room.id ∧ sent.hotelId = room.hotelId ∧
      sent.roomTypeId = room.roomTypeId ∧ sent.roomNumber = room.roomNumber ∧
      sent.floor = room.floor ∧
      (∀ method url data, RoomsEffect.requestWithData method url data ∉ rest) := by
  obtain ⟨r, hr, hid⟩ := h
  have hsome : (rooms.find? (fun r => r.id == roomId)).isSome := by
    rw [List.find?_isSome]
    exact ⟨r, hr, by simpa using hid⟩
  obtain ⟨room, hroom⟩ := Option.isSome_iff_exists.mp hsome
  have hmem := List.mem_of_find?_eq_some hroom
  have hrid : room.id = roomId := by simpa using List.find?_some hroom
  refine ⟨room, { room with status := newStatus },
    (match update with
     | Outcome.resolved _ =>
        RoomsEffect.setMessage "success" "Room status updated successfully!" ::
          roomsLoadData roomsFetch hotelsFetch roomTypesFetch
     | Outcome.rejected =>
        [RoomsEffect.consoleError "Error updating room status:",
         RoomsEffect.setMessage "error" "Error updating room status. Please try again."]) ++
      [RoomsEffect.setUpdatingRoom none],
    hroom, hmem, hrid, ?_, rfl, rfl, rfl, rfl, rfl, rfl, ?_⟩
  · simp only [updateRoomStatus, hroom, roomServiceUpdate, List.cons_append, List.nil_append]
  · intro method url data
    cases update <;> cases roomsFetch <;> cases hotelsFetch <;> cases roomTypesFetch <;>
      simp [roomsLoadData]

/-- C30 (witness): room 3 of two stored rooms set to OCCUPIED. -/
theorem updateRoomStatus_payload_witness :
    ∃ room sent rest,
      [roomWith 2 "OCCUPIED", roomWith 3 "AVAILABLE"].find? (fun r => r.id == 3) = some room ∧
      updateRoomStatus [roomWith 2 "OCCUPIED", roomWith 3 "AVAILABLE"] 3 "OCCUPIED"
          (Outcome.resolved ()) (Outcome.resolved []) (Outcome.resolved [])
          (Outcome.resolved []) =
        RoomsEffect.setUpdatingRoom (some 3) ::
          RoomsEffect.requestWithData "PUT" ("/api/rooms/" ++ toString 3)
            (RoomPayload.record sent) :: rest ∧
      sent.status = "OCCUPIED" ∧ sent.roomNumber = room.roomNumber :=
  have h := updateRoomStatus_payload [roomWith 2 "OCCUPIED", roomWith 3 "AVAILABLE"] 3
    "OCCUPIED" (Outcome.resolved ()) (Outcome.resolved []) (Outcome.resolved [])
    (Outcome.resolved []) ⟨roomWith 3 "AVAILABLE", by decide, rfl⟩
  h.elim fun room h1 => h1.elim fun sent h2 => h2.elim fun rest h3 =>
    ⟨room, sent, rest, h3.1, h3.2.2.2.1, h3.2.2.2.2.1, h3.2.2.2.2.2.2.2.2.1⟩

end HotelAdmin
